import Mathlib

set_option maxHeartbeats 1000000

/-! Shallow embedding of the Nexus HR onboarding/offboarding workflow engine.

The repository contains two parallel implementations of the same tool engine:
the `mcp-express-adapter` tool handlers and the switch-based MCP SDK call
handler.  Both are transcribed here (namespaces `Adapter` and `Sdk`) over a
shared data model.  Timestamps (`new Date().toISOString()`) are modelled as an
explicit `now : Nat` parameter; generated employee ids are modelled as an
explicit `freshId` argument to the initiation call. -/

inductive Status where
  | Initiated
  | PendingApproval
  | Approved
  | InProgress
  | Completed
deriving DecidableEq

structure ApprovalSlot where
  approved : Bool
  approver : Option String
  date : Option Nat
deriving DecidableEq

structure AuditEntry where
  date : Nat
  action : String
  actor : String
  details : String
deriving DecidableEq

structure Employee where
  id : String
  name : String
  email : String
  dateOfJoining : String
  department : String
  designation : String
  manager : String
  workLocation : String
  contactPhone : String
  employmentType : String
  projectAssignment : Option String
deriving DecidableEq

structure SystemFlags where
  hrms : Bool
  email : Bool
  network : Bool
  projectTools : Bool
deriving DecidableEq

structure OnbApprovals where
  hr : ApprovalSlot
  manager : ApprovalSlot
deriving DecidableEq

structure OnbCompliance where
  ndaSigned : Bool
  idVerified : Bool
  backgroundCheck : Bool
deriving DecidableEq

structure FinanceEnrollment where
  payroll : Bool
  benefits : Bool
deriving DecidableEq

structure OnboardingRecord where
  employeeId : String
  employee : Employee
  status : Status
  initiatedBy : String
  initiatedDate : Nat
  approvals : OnbApprovals
  systemProvisioning : SystemFlags
  compliance : OnbCompliance
  financeEnrollment : FinanceEnrollment
  auditTrail : List AuditEntry
deriving DecidableEq

structure OffApprovals where
  manager : ApprovalSlot
  hr : ApprovalSlot
deriving DecidableEq

structure OffCompliance where
  exitFormSubmitted : Bool
  assetsReturned : Bool
  clearanceCertificate : Bool
deriving DecidableEq

structure FinalPayroll where
  processed : Bool
  benefitsTerminated : Bool
deriving DecidableEq

structure OffboardingRecord where
  employeeId : String
  employeeName : String
  lastWorkingDay : String
  department : String
  reason : String
  manager : String
  status : Status
  initiatedBy : String
  initiatedDate : Nat
  approvals : OffApprovals
  systemDeprovisioning : SystemFlags
  compliance : OffCompliance
  finalPayroll : FinalPayroll
  auditTrail : List AuditEntry
deriving DecidableEq

/-- The two in-memory stores (`onboardingRecords` / `offboardingRecords`),
modelled as association lists with JavaScript `Map` semantics: `set` replaces
the entry in place if the key is present, otherwise appends. -/
structure Store where
  onb : List (String × OnboardingRecord)
  off : List (String × OffboardingRecord)
deriving DecidableEq

/-- JavaScript `Map.set`: replace in insertion position if present, else append. -/
def mapSet {α : Type} (m : List (String × α)) (k : String) (v : α) : List (String × α) :=
  match m with
  | [] => [(k, v)]
  | (k0, v0) :: rest => if k0 = k then (k, v) :: rest else (k0, v0) :: mapSet rest k v

/-- JavaScript template interpolation of a boolean. -/
def boolStr (b : Bool) : String :=
  if b then "true" else "false"

/-- JavaScript `comments || default` (the empty string is falsy). -/
def orDefault (s : Option String) (d : String) : String :=
  match s with
  | some c => if c = "" then d else c
  | none => d

inductive OnbRole where
  | hr
  | manager
deriving DecidableEq

def OnbRole.str : OnbRole → String
  | .hr => "hr"
  | .manager => "manager"

def OnbRole.upper : OnbRole → String
  | .hr => "HR"
  | .manager => "MANAGER"

inductive OffRole where
  | manager
  | hr
deriving DecidableEq

def OffRole.str : OffRole → String
  | .manager => "manager"
  | .hr => "hr"

def OffRole.upper : OffRole → String
  | .manager => "MANAGER"
  | .hr => "HR"

structure InitiateOnbArgs where
  name : String
  email : String
  dateOfJoining : String
  department : String
  designation : String
  manager : String
  workLocation : String
  contactPhone : String
  employmentType : String
  projectAssignment : Option String
  initiatedBy : String
deriving DecidableEq

structure ApproveOnbArgs where
  employeeId : String
  approverRole : OnbRole
  approverName : String
  approved : Bool
  comments : Option String
deriving DecidableEq

structure OnbComplianceArgs where
  employeeId : String
  ndaSigned : Option Bool
  idVerified : Option Bool
  backgroundCheck : Option Bool
deriving DecidableEq

structure InitiateOffArgs where
  employeeId : String
  employeeName : String
  lastWorkingDay : String
  department : String
  reason : String
  manager : String
  initiatedBy : String
deriving DecidableEq

structure ApproveOffArgs where
  employeeId : String
  approverRole : OffRole
  approverName : String
  approved : Bool
  comments : Option String
deriving DecidableEq

structure OffComplianceArgs where
  employeeId : String
  exitFormSubmitted : Option Bool
  assetsReturned : Option Bool
  clearanceCertificate : Option Bool
deriving DecidableEq

inductive ListType where
  | onboarding
  | offboarding
  | all
deriving DecidableEq

structure PendingOnbEntry where
  employeeId : String
  employeeName : String
  status : Status
  hrPending : Bool
  managerPending : Bool
deriving DecidableEq

structure PendingOffEntry where
  employeeId : String
  employeeName : String
  status : Status
  lastWorkingDay : String
  managerPending : Bool
  hrPending : Bool
deriving DecidableEq

structure OnbChecklist where
  approvals : Bool
  systemProvisioning : Bool
  compliance : Bool
  financeEnrollment : Bool
deriving DecidableEq

structure OffChecklist where
  approvals : Bool
  systemDeprovisioning : Bool
  compliance : Bool
  finalPayroll : Bool
deriving DecidableEq

/-- Structured result payloads of the tool handlers (the engine returns plain
structured data; wire framing is outside the engine). -/
inductive ToolResult where
  | err (error : String)
  | initiateOnbOk (employeeId : String) (status : Status) (message : String)
      (nextSteps : List String) (employee : Employee)
  | validateOk (employeeId : String) (isValid : Bool) (missingFields : List String)
      (message : String)
  | approveOnbOk (employeeId : String) (approverRole : String) (approved : Bool)
      (status : Status) (message : String) (nextSteps : List String)
  | provisionOk (employeeId : String) (provisionedSystems : List String)
      (systemStatus : SystemFlags) (message : String)
  | enrollOk (employeeId : String) (financeEnrollment : FinanceEnrollment) (message : String)
  | complianceOnbOk (employeeId : String) (compliance : OnbCompliance)
      (allCompliant : Bool) (message : String)
  | completeOnbFailed (error : String) (checklist : OnbChecklist)
  | completeOnbOk (employeeId : String) (status : Status) (message : String)
      (completionDate : Nat) (notifications : List String)
  | initiateOffOk (employeeId : String) (status : Status) (message : String)
      (lastWorkingDay : String) (nextSteps : List String)
  | approveOffOk (employeeId : String) (approverRole : String) (approved : Bool)
      (status : Status) (message : String) (nextSteps : List String)
  | deprovisionOk (employeeId : String) (deprovisionedSystems : List String)
      (systemStatus : SystemFlags) (message : String)
  | finalPayrollOk (employeeId : String) (finalPayroll : FinalPayroll) (message : String)
  | complianceOffOk (employeeId : String) (compliance : OffCompliance)
      (allCompliant : Bool) (message : String)
  | completeOffFailed (error : String) (checklist : OffChecklist)
  | completeOffOk (employeeId : String) (status : Status) (message : String)
      (completionDate : Nat) (notifications : List String)
  | onbStatusOk (employeeId : String) (employee : Employee) (status : Status)
      (approvals : OnbApprovals) (systemProvisioning : SystemFlags)
      (compliance : OnbCompliance) (financeEnrollment : FinanceEnrollment)
      (auditTrail : List AuditEntry)
  | offStatusOk (employeeId : String) (employeeName : String) (status : Status)
      (lastWorkingDay : String) (approvals : OffApprovals)
      (systemDeprovisioning : SystemFlags) (compliance : OffCompliance)
      (finalPayroll : FinalPayroll) (auditTrail : List AuditEntry)
  | pendingOk (pendingOnboarding : List PendingOnbEntry)
      (pendingOffboarding : List PendingOffEntry) (totalPending : Nat)
  | employeeDetailsOnb (employee : Employee) (status : Status)
  | employeeDetailsOff (employeeId : String) (employeeName : String)
      (department : String) (lastWorkingDay : String) (status : Status)
deriving DecidableEq

/-- The `success` field of a result object: `false` exactly for the
`{ success: false, error: ... }` shapes. -/
def ToolResult.isSuccess : ToolResult → Bool
  | .err _ => false
  | .completeOnbFailed _ _ => false
  | .completeOffFailed _ _ => false
  | _ => true

/-- A tool invocation with already-parsed, schema-validated arguments. -/
inductive ToolCall where
  | initiateOnboarding (freshId : String) (args : InitiateOnbArgs)
  | validateOnboardingData (employeeId : String)
  | approveOnboarding (args : ApproveOnbArgs)
  | provisionSystems (employeeId : String) (systems : List String)
  | enrollBenefits (employeeId : String) (enrollPayroll : Bool) (enrollBens : Bool)
  | checkOnboardingCompliance (args : OnbComplianceArgs)
  | completeOnboarding (employeeId : String) (completedBy : String)
  | initiateOffboarding (args : InitiateOffArgs)
  | approveOffboarding (args : ApproveOffArgs)
  | deprovisionSystems (employeeId : String) (systems : List String)
  | processFinalPayroll (employeeId : String) (processPayroll : Bool) (terminateBens : Bool)
  | checkOffboardingCompliance (args : OffComplianceArgs)
  | completeOffboarding (employeeId : String) (completedBy : String)
  | getOnboardingStatus (employeeId : String)
  | getOffboardingStatus (employeeId : String)
  | listPendingApprovals (ty : ListType)
  | getEmployeeDetails (employeeId : String)
deriving DecidableEq

namespace Adapter

/-- `initiate_onboarding` handler (mcp-express-adapter implementation). -/
def initiateOnboarding (freshId : String) (a : InitiateOnbArgs) (now : Nat) (st : Store) :
    Store × ToolResult :=
  let employee : Employee :=
    ⟨freshId, a.name, a.email, a.dateOfJoining, a.department, a.designation, a.manager,
      a.workLocation, a.contactPhone, a.employmentType, a.projectAssignment⟩
  let record : OnboardingRecord :=
    { employeeId := freshId
      employee := employee
      status := .Initiated
      initiatedBy := a.initiatedBy
      initiatedDate := now
      approvals := ⟨⟨false, none, none⟩, ⟨false, none, none⟩⟩
      systemProvisioning := ⟨false, false, false, false⟩
      compliance := ⟨false, false, false⟩
      financeEnrollment := ⟨false, false⟩
      auditTrail := [⟨now, "Onboarding Initiated", a.initiatedBy,
        "Onboarding started for " ++ employee.name⟩] }
  ({ st with onb := mapSet st.onb freshId record },
   .initiateOnbOk freshId .Initiated ("Onboarding process initiated for " ++ employee.name)
     ["HR Approval", "Manager Approval"] employee)

/-- `validate_onboarding_data` handler. -/
def validateOnboardingData (employeeId : String) (st : Store) : Store × ToolResult :=
  match List.lookup employeeId st.onb with
  | none => (st, .err "Employee not found")
  | some record =>
    let employee := record.employee
    let missingFields : List String :=
      (if employee.name = "" then ["name"] else []) ++
      (if employee.email = "" then ["email"] else []) ++
      (if employee.dateOfJoining = "" then ["dateOfJoining"] else []) ++
      (if employee.department = "" then ["department"] else []) ++
      (if employee.designation = "" then ["designation"] else []) ++
      (if employee.manager = "" then ["manager"] else []) ++
      (if employee.workLocation = "" then ["workLocation"] else []) ++
      (if employee.contactPhone = "" then ["contactPhone"] else []) ++
      (if employee.employmentType = "" then ["employmentType"] else [])
    let isValid := missingFields.length == 0
    (st, .validateOk employeeId isValid missingFields
      (if isValid then "All required fields are complete" else "Missing required fields"))

/-- `approve_onboarding` handler. -/
def approveOnboarding (a : ApproveOnbArgs) (now : Nat) (st : Store) : Store × ToolResult :=
  match List.lookup a.employeeId st.onb with
  | none => (st, .err "Employee not found")
  | some record =>
    let slot : ApprovalSlot := ⟨a.approved, some a.approverName, some now⟩
    let record :=
      match a.approverRole with
      | .hr => { record with approvals := { record.approvals with hr := slot } }
      | .manager => { record with approvals := { record.approvals with manager := slot } }
    let record :=
      { record with auditTrail := record.auditTrail ++
          [⟨now, a.approverRole.upper ++ " " ++ (if a.approved then "Approved" else "Rejected"),
            a.approverName,
            orDefault a.comments (a.approverRole.str ++ " " ++
              (if a.approved then "approved" else "rejected") ++ " onboarding")⟩] }
    let record :=
      if record.approvals.hr.approved && record.approvals.manager.approved then
        { record with status := .Approved }
      else if !a.approved then
        { record with status := .PendingApproval }
      else
        record
    ({ st with onb := mapSet st.onb a.employeeId record },
     .approveOnbOk a.employeeId a.approverRole.str a.approved record.status
       (a.approverRole.upper ++ " " ++ (if a.approved then "approved" else "rejected") ++
         " onboarding for " ++ record.employee.name)
       (if record.status = .Approved then
          ["System Provisioning", "Compliance Checks", "Finance Enrollment"]
        else ["Pending other approvals"]))

/-- One step of `systems.forEach((system) => { if (system in tracker) tracker[system] = true })`:
flags in the fixed vocabulary are set; unknown names are silently ignored. -/
def applySystem (flags : SystemFlags) (system : String) : SystemFlags :=
  if system = "hrms" then { flags with hrms := true }
  else if system = "email" then { flags with email := true }
  else if system = "network" then { flags with network := true }
  else if system = "projectTools" then { flags with projectTools := true }
  else flags

/-- `provision_systems` handler. -/
def provisionSystems (employeeId : String) (systems : List String) (now : Nat) (st : Store) :
    Store × ToolResult :=
  match List.lookup employeeId st.onb with
  | none => (st, .err "Employee not found")
  | some record =>
    let record := { record with
      systemProvisioning := systems.foldl applySystem record.systemProvisioning }
    let record :=
      { record with auditTrail := record.auditTrail ++
          [(⟨now, "Systems Provisioned", "IT System",
            "Provisioned: " ++ String.intercalate ", " systems⟩ : AuditEntry)] }
    let record := { record with status := .InProgress }
    ({ st with onb := mapSet st.onb employeeId record },
     .provisionOk employeeId systems record.systemProvisioning
       ("Systems provisioned for " ++ record.employee.name))

/-- `enroll_benefits` handler. -/
def enrollBenefits (employeeId : String) (enrollPayroll : Bool) (enrollBens : Bool)
    (now : Nat) (st : Store) : Store × ToolResult :=
  match List.lookup employeeId st.onb with
  | none => (st, .err "Employee not found")
  | some record =>
    let record :=
      if enrollPayroll then
        { record with financeEnrollment := { record.financeEnrollment with payroll := true } }
      else record
    let record :=
      if enrollBens then
        { record with financeEnrollment := { record.financeEnrollment with benefits := true } }
      else record
    let record :=
      { record with auditTrail := record.auditTrail ++
          [⟨now, "Finance Enrollment", "Finance System",
        "Payroll: " ++ boolStr enrollPayroll ++ ", Benefits: " ++ boolStr enrollBens⟩] }
    ({ st with onb := mapSet st.onb employeeId record },
     .enrollOk employeeId record.financeEnrollment
       ("Finance enrollment completed for " ++ record.employee.name))

/-- `check_onboarding_compliance` handler. -/
def checkOnboardingCompliance (a : OnbComplianceArgs) (now : Nat) (st : Store) :
    Store × ToolResult :=
  match List.lookup a.employeeId st.onb with
  | none => (st, .err "Employee not found")
  | some record =>
    let record :=
      match a.ndaSigned with
      | some b => { record with compliance := { record.compliance with ndaSigned := b } }
      | none => record
    let record :=
      match a.idVerified with
      | some b => { record with compliance := { record.compliance with idVerified := b } }
      | none => record
    let record :=
      match a.backgroundCheck with
      | some b => { record with compliance := { record.compliance with backgroundCheck := b } }
      | none => record
    let record :=
      { record with auditTrail := record.auditTrail ++
          [⟨now, "Compliance Check", "Compliance System",
        "NDA: " ++ boolStr record.compliance.ndaSigned ++
        ", ID: " ++ boolStr record.compliance.idVerified ++
        ", Background: " ++ boolStr record.compliance.backgroundCheck⟩] }
    let allCompliant := record.compliance.ndaSigned && record.compliance.idVerified &&
      record.compliance.backgroundCheck
    ({ st with onb := mapSet st.onb a.employeeId record },
     .complianceOnbOk a.employeeId record.compliance allCompliant
       (if allCompliant then "All compliance checks passed" else "Compliance checks incomplete"))

/-- `complete_onboarding` handler. -/
def completeOnboarding (employeeId : String) (completedBy : String) (now : Nat) (st : Store) :
    Store × ToolResult :=
  match List.lookup employeeId st.onb with
  | none => (st, .err "Employee not found")
  | some record =>
    let allSystemsProvisioned := record.systemProvisioning.hrms &&
      record.systemProvisioning.email && record.systemProvisioning.network &&
      record.systemProvisioning.projectTools
    let allCompliant := record.compliance.ndaSigned && record.compliance.idVerified &&
      record.compliance.backgroundCheck
    let financeEnrolled := record.financeEnrollment.payroll && record.financeEnrollment.benefits
    let allApproved := record.approvals.hr.approved && record.approvals.manager.approved
    if !allSystemsProvisioned || !allCompliant || !financeEnrolled || !allApproved then
      (st, .completeOnbFailed "Cannot complete onboarding - requirements not met"
        ⟨allApproved, allSystemsProvisioned, allCompliant, financeEnrolled⟩)
    else
      let record := { record with status := .Completed, auditTrail := record.auditTrail ++
        [⟨now, "Onboarding Completed", completedBy,
          "Onboarding process completed for " ++ record.employee.name⟩] }
      ({ st with onb := mapSet st.onb employeeId record },
       .completeOnbOk employeeId .Completed
         ("Onboarding completed successfully for " ++ record.employee.name) now
         ["Email sent to " ++ record.employee.email,
          "Manager " ++ record.employee.manager ++ " notified",
          "HR team notified"])

/-- `initiate_offboarding` handler.  The caller-supplied `employeeId` keys the
store; an existing record under that id is overwritten by `Map.set`. -/
def initiateOffboarding (a : InitiateOffArgs) (now : Nat) (st : Store) : Store × ToolResult :=
  let record : OffboardingRecord :=
    { employeeId := a.employeeId
      employeeName := a.employeeName
      lastWorkingDay := a.lastWorkingDay
      department := a.department
      reason := a.reason
      manager := a.manager
      status := .Initiated
      initiatedBy := a.initiatedBy
      initiatedDate := now
      approvals := ⟨⟨false, none, none⟩, ⟨false, none, none⟩⟩
      systemDeprovisioning := ⟨false, false, false, false⟩
      compliance := ⟨false, false, false⟩
      finalPayroll := ⟨false, false⟩
      auditTrail := [⟨now, "Offboarding Initiated", a.initiatedBy,
        "Offboarding started for " ++ a.employeeName ++ ". Reason: " ++ a.reason⟩] }
  ({ st with off := mapSet st.off a.employeeId record },
   .initiateOffOk a.employeeId .Initiated
     ("Offboarding process initiated for " ++ a.employeeName) a.lastWorkingDay
     ["Manager Approval", "HR Approval"])

/-- `approve_offboarding` handler.  Note: unlike `approve_onboarding`, there is
no `else if (!approved)` branch reverting the status to Pending Approval. -/
def approveOffboarding (a : ApproveOffArgs) (now : Nat) (st : Store) : Store × ToolResult :=
  match List.lookup a.employeeId st.off with
  | none => (st, .err "Offboarding record not found")
  | some record =>
    let slot : ApprovalSlot := ⟨a.approved, some a.approverName, some now⟩
    let record :=
      match a.approverRole with
      | .manager => { record with approvals := { record.approvals with manager := slot } }
      | .hr => { record with approvals := { record.approvals with hr := slot } }
    let record :=
      { record with auditTrail := record.auditTrail ++
          [⟨now, a.approverRole.upper ++ " " ++ (if a.approved then "Approved" else "Rejected"),
            a.approverName,
            orDefault a.comments (a.approverRole.str ++ " " ++
              (if a.approved then "approved" else "rejected") ++ " offboarding")⟩] }
    let record :=
      if record.approvals.manager.approved && record.approvals.hr.approved then
        { record with status := .Approved }
      else
        record
    ({ st with off := mapSet st.off a.employeeId record },
     .approveOffOk a.employeeId a.approverRole.str a.approved record.status
       (a.approverRole.upper ++ " " ++ (if a.approved then "approved" else "rejected") ++
         " offboarding for " ++ record.employeeName)
       (if record.status = .Approved then
          ["System Deprovisioning", "Compliance Checks", "Final Payroll"]
        else ["Pending other approvals"]))

/-- `deprovision_systems` handler. -/
def deprovisionSystems (employeeId : String) (systems : List String) (now : Nat) (st : Store) :
    Store × ToolResult :=
  match List.lookup employeeId st.off with
  | none => (st, .err "Offboarding record not found")
  | some record =>
    let record := { record with
      systemDeprovisioning := systems.foldl applySystem record.systemDeprovisioning }
    let record :=
      { record with auditTrail := record.auditTrail ++
          [(⟨now, "Systems Deprovisioned", "IT System",
            "Deprovisioned: " ++ String.intercalate ", " systems⟩ : AuditEntry)] }
    let record := { record with status := .InProgress }
    ({ st with off := mapSet st.off employeeId record },
     .deprovisionOk employeeId systems record.systemDeprovisioning
       ("Systems deprovisioned for " ++ record.employeeName))

/-- `process_final_payroll` handler. -/
def processFinalPayroll (employeeId : String) (processPayroll : Bool) (terminateBens : Bool)
    (now : Nat) (st : Store) : Store × ToolResult :=
  match List.lookup employeeId st.off with
  | none => (st, .err "Offboarding record not found")
  | some record =>
    let record :=
      if processPayroll then
        { record with finalPayroll := { record.finalPayroll with processed := true } }
      else record
    let record :=
      if terminateBens then
        { record with finalPayroll := { record.finalPayroll with benefitsTerminated := true } }
      else record
    let record :=
      { record with auditTrail := record.auditTrail ++
          [⟨now, "Final Payroll Processing", "Finance System",
        "Final Payroll: " ++ boolStr processPayroll ++
        ", Benefits Terminated: " ++ boolStr terminateBens⟩] }
    ({ st with off := mapSet st.off employeeId record },
     .finalPayrollOk employeeId record.finalPayroll
       ("Final payroll processing completed for " ++ record.employeeName))

/-- `check_offboarding_compliance` handler. -/
def checkOffboardingCompliance (a : OffComplianceArgs) (now : Nat) (st : Store) :
    Store × ToolResult :=
  match List.lookup a.employeeId st.off with
  | none => (st, .err "Offboarding record not found")
  | some record =>
    let record :=
      match a.exitFormSubmitted with
      | some b => { record with compliance := { record.compliance with exitFormSubmitted := b } }
      | none => record
    let record :=
      match a.assetsReturned with
      | some b => { record with compliance := { record.compliance with assetsReturned := b } }
      | none => record
    let record :=
      match a.clearanceCertificate with
      | some b =>
        { record with compliance := { record.compliance with clearanceCertificate := b } }
      | none => record
    let record :=
      { record with auditTrail := record.auditTrail ++
          [⟨now, "Compliance Check", "Compliance System",
        "Exit Form: " ++ boolStr record.compliance.exitFormSubmitted ++
        ", Assets: " ++ boolStr record.compliance.assetsReturned ++
        ", Clearance: " ++ boolStr record.compliance.clearanceCertificate⟩] }
    let allCompliant := record.compliance.exitFormSubmitted &&
      record.compliance.assetsReturned && record.compliance.clearanceCertificate
    ({ st with off := mapSet st.off a.employeeId record },
     .complianceOffOk a.employeeId record.compliance allCompliant
       (if allCompliant then "All compliance checks passed" else "Compliance checks incomplete"))

/-- `complete_offboarding` handler. -/
def completeOffboarding (employeeId : String) (completedBy : String) (now : Nat) (st : Store) :
    Store × ToolResult :=
  match List.lookup employeeId st.off with
  | none => (st, .err "Offboarding record not found")
  | some record =>
    let allSystemsDeprovisioned := record.systemDeprovisioning.hrms &&
      record.systemDeprovisioning.email && record.systemDeprovisioning.network &&
      record.systemDeprovisioning.projectTools
    let allCompliant := record.compliance.exitFormSubmitted &&
      record.compliance.assetsReturned && record.compliance.clearanceCertificate
    let payrollProcessed := record.finalPayroll.processed && record.finalPayroll.benefitsTerminated
    let allApproved := record.approvals.manager.approved && record.approvals.hr.approved
    if !allSystemsDeprovisioned || !allCompliant || !payrollProcessed || !allApproved then
      (st, .completeOffFailed "Cannot complete offboarding - requirements not met"
        ⟨allApproved, allSystemsDeprovisioned, allCompliant, payrollProcessed⟩)
    else
      let record := { record with status := .Completed, auditTrail := record.auditTrail ++
        [⟨now, "Offboarding Completed", completedBy,
          "Offboarding process completed for " ++ record.employeeName⟩] }
      ({ st with off := mapSet st.off employeeId record },
       .completeOffOk employeeId .Completed
         ("Offboarding completed successfully for " ++ record.employeeName) now
         ["Employee notified",
          "Manager " ++ record.manager ++ " notified",
          "HR team notified"])

/-- `get_onboarding_status` handler (read-only). -/
def getOnboardingStatus (employeeId : String) (st : Store) : Store × ToolResult :=
  match List.lookup employeeId st.onb with
  | none => (st, .err "Employee not found")
  | some record =>
    (st, .onbStatusOk employeeId record.employee record.status record.approvals
      record.systemProvisioning record.compliance record.financeEnrollment record.auditTrail)

/-- `get_offboarding_status` handler (read-only). -/
def getOffboardingStatus (employeeId : String) (st : Store) : Store × ToolResult :=
  match List.lookup employeeId st.off with
  | none => (st, .err "Offboarding record not found")
  | some record =>
    (st, .offStatusOk employeeId record.employeeName record.status record.lastWorkingDay
      record.approvals record.systemDeprovisioning record.compliance record.finalPayroll
      record.auditTrail)

/-- Scan of the onboarding store inside `list_pending_approvals`. -/
def pendingOnbScan (m : List (String × OnboardingRecord)) : List PendingOnbEntry :=
  m.filterMap fun p =>
    let record := p.2
    if !record.approvals.hr.approved || !record.approvals.manager.approved then
      some ⟨record.employeeId, record.employee.name, record.status,
        !record.approvals.hr.approved, !record.approvals.manager.approved⟩
    else none

/-- Scan of the offboarding store inside `list_pending_approvals`. -/
def pendingOffScan (m : List (String × OffboardingRecord)) : List PendingOffEntry :=
  m.filterMap fun p =>
    let record := p.2
    if !record.approvals.manager.approved || !record.approvals.hr.approved then
      some ⟨record.employeeId, record.employeeName, record.status, record.lastWorkingDay,
        !record.approvals.manager.approved, !record.approvals.hr.approved⟩
    else none

/-- `list_pending_approvals` handler (read-only). -/
def listPendingApprovals (ty : ListType) (st : Store) : Store × ToolResult :=
  let pendingOnboarding := if ty = .onboarding ∨ ty = .all then pendingOnbScan st.onb else []
  let pendingOffboarding := if ty = .offboarding ∨ ty = .all then pendingOffScan st.off else []
  (st, .pendingOk pendingOnboarding pendingOffboarding
    (pendingOnboarding.length + pendingOffboarding.length))

/-- `get_employee_details` handler (read-only): onboarding store first. -/
def getEmployeeDetails (employeeId : String) (st : Store) : Store × ToolResult :=
  match List.lookup employeeId st.onb with
  | some record => (st, .employeeDetailsOnb record.employee record.status)
  | none =>
    match List.lookup employeeId st.off with
    | some record =>
      (st, .employeeDetailsOff record.employeeId record.employeeName record.department
        record.lastWorkingDay record.status)
    | none => (st, .err "Employee not found")

/-- Dispatch over the seventeen declared tools (mcp-express-adapter tool list). -/
def handleTool (c : ToolCall) (now : Nat) (st : Store) : Store × ToolResult :=
  match c with
  | .initiateOnboarding freshId args => initiateOnboarding freshId args now st
  | .validateOnboardingData employeeId => validateOnboardingData employeeId st
  | .approveOnboarding args => approveOnboarding args now st
  | .provisionSystems employeeId systems => provisionSystems employeeId systems now st
  | .enrollBenefits employeeId p b => enrollBenefits employeeId p b now st
  | .checkOnboardingCompliance args => checkOnboardingCompliance args now st
  | .completeOnboarding employeeId completedBy => completeOnboarding employeeId completedBy now st
  | .initiateOffboarding args => initiateOffboarding args now st
  | .approveOffboarding args => approveOffboarding args now st
  | .deprovisionSystems employeeId systems => deprovisionSystems employeeId systems now st
  | .processFinalPayroll employeeId p t => processFinalPayroll employeeId p t now st
  | .checkOffboardingCompliance args => checkOffboardingCompliance args now st
  | .completeOffboarding employeeId completedBy => completeOffboarding employeeId completedBy now st
  | .getOnboardingStatus employeeId => getOnboardingStatus employeeId st
  | .getOffboardingStatus employeeId => getOffboardingStatus employeeId st
  | .listPendingApprovals ty => listPendingApprovals ty st
  | .getEmployeeDetails employeeId => getEmployeeDetails employeeId st

end Adapter

namespace Sdk

/-- `initiate_onboarding` handler (switch-based MCP SDK implementation). -/
def initiateOnboarding (freshId : String) (a : InitiateOnbArgs) (now : Nat) (st : Store) :
    Store × ToolResult :=
  let employee : Employee :=
    ⟨freshId, a.name, a.email, a.dateOfJoining, a.department, a.designation, a.manager,
      a.workLocation, a.contactPhone, a.employmentType, a.projectAssignment⟩
  let record : OnboardingRecord :=
    { employeeId := freshId
      employee := employee
      status := .Initiated
      initiatedBy := a.initiatedBy
      initiatedDate := now
      approvals := ⟨⟨false, none, none⟩, ⟨false, none, none⟩⟩
      systemProvisioning := ⟨false, false, false, false⟩
      compliance := ⟨false, false, false⟩
      financeEnrollment := ⟨false, false⟩
      auditTrail := [⟨now, "Onboarding Initiated", a.initiatedBy,
        "Onboarding started for " ++ employee.name⟩] }
  ({ st with onb := mapSet st.onb freshId record },
   .initiateOnbOk freshId .Initiated ("Onboarding process initiated for " ++ employee.name)
     ["HR Approval", "Manager Approval"] employee)

/-- `validate_onboarding_data` handler. -/
def validateOnboardingData (employeeId : String) (st : Store) : Store × ToolResult :=
  match List.lookup employeeId st.onb with
  | none => (st, .err "Employee not found")
  | some record =>
    let employee := record.employee
    let missingFields : List String :=
      (if employee.name = "" then ["name"] else []) ++
      (if employee.email = "" then ["email"] else []) ++
      (if employee.dateOfJoining = "" then ["dateOfJoining"] else []) ++
      (if employee.department = "" then ["department"] else []) ++
      (if employee.designation = "" then ["designation"] else []) ++
      (if employee.manager = "" then ["manager"] else []) ++
      (if employee.workLocation = "" then ["workLocation"] else []) ++
      (if employee.contactPhone = "" then ["contactPhone"] else []) ++
      (if employee.employmentType = "" then ["employmentType"] else [])
    let isValid := missingFields.length == 0
    (st, .validateOk employeeId isValid missingFields
      (if isValid then "All required fields are complete" else "Missing required fields"))

/-- `approve_onboarding` handler. -/
def approveOnboarding (a : ApproveOnbArgs) (now : Nat) (st : Store) : Store × ToolResult :=
  match List.lookup a.employeeId st.onb with
  | none => (st, .err "Employee not found")
  | some record =>
    let slot : ApprovalSlot := ⟨a.approved, some a.approverName, some now⟩
    let record :=
      match a.approverRole with
      | .hr => { record with approvals := { record.approvals with hr := slot } }
      | .manager => { record with approvals := { record.approvals with manager := slot } }
    let record :=
      { record with auditTrail := record.auditTrail ++
          [⟨now, a.approverRole.upper ++ " " ++ (if a.approved then "Approved" else "Rejected"),
            a.approverName,
            orDefault a.comments (a.approverRole.str ++ " " ++
              (if a.approved then "approved" else "rejected") ++ " onboarding")⟩] }
    let record :=
      if record.approvals.hr.approved && record.approvals.manager.approved then
        { record with status := .Approved }
      else if !a.approved then
        { record with status := .PendingApproval }
      else
        record
    ({ st with onb := mapSet st.onb a.employeeId record },
     .approveOnbOk a.employeeId a.approverRole.str a.approved record.status
       (a.approverRole.upper ++ " " ++ (if a.approved then "approved" else "rejected") ++
         " onboarding for " ++ record.employee.name)
       (if record.status = .Approved then
          ["System Provisioning", "Compliance Checks", "Finance Enrollment"]
        else ["Pending other approvals"]))

/-- One step of `systems.forEach((system) => { if (system in tracker) tracker[system] = true })`:
flags in the fixed vocabulary are set; unknown names are silently ignored. -/
def applySystem (flags : SystemFlags) (system : String) : SystemFlags :=
  if system = "hrms" then { flags with hrms := true }
  else if system = "email" then { flags with email := true }
  else if system = "network" then { flags with network := true }
  else if system = "projectTools" then { flags with projectTools := true }
  else flags

/-- `provision_systems` handler. -/
def provisionSystems (employeeId : String) (systems : List String) (now : Nat) (st : Store) :
    Store × ToolResult :=
  match List.lookup employeeId st.onb with
  | none => (st, .err "Employee not found")
  | some record =>
    let record := { record with
      systemProvisioning := systems.foldl applySystem record.systemProvisioning }
    let record :=
      { record with auditTrail := record.auditTrail ++
          [(⟨now, "Systems Provisioned", "IT System",
            "Provisioned: " ++ String.intercalate ", " systems⟩ : AuditEntry)] }
    let record := { record with status := .InProgress }
    ({ st with onb := mapSet st.onb employeeId record },
     .provisionOk employeeId systems record.systemProvisioning
       ("Systems provisioned for " ++ record.employee.name))

/-- `enroll_benefits` handler. -/
def enrollBenefits (employeeId : String) (enrollPayroll : Bool) (enrollBens : Bool)
    (now : Nat) (st : Store) : Store × ToolResult :=
  match List.lookup employeeId st.onb with
  | none => (st, .err "Employee not found")
  | some record =>
    let record :=
      if enrollPayroll then
        { record with financeEnrollment := { record.financeEnrollment with payroll := true } }
      else record
    let record :=
      if enrollBens then
        { record with financeEnrollment := { record.financeEnrollment with benefits := true } }
      else record
    let record :=
      { record with auditTrail := record.auditTrail ++
          [⟨now, "Finance Enrollment", "Finance System",
        "Payroll: " ++ boolStr enrollPayroll ++ ", Benefits: " ++ boolStr enrollBens⟩] }
    ({ st with onb := mapSet st.onb employeeId record },
     .enrollOk employeeId record.financeEnrollment
       ("Finance enrollment completed for " ++ record.employee.name))

/-- `check_onboarding_compliance` handler. -/
def checkOnboardingCompliance (a : OnbComplianceArgs) (now : Nat) (st : Store) :
    Store × ToolResult :=
  match List.lookup a.employeeId st.onb with
  | none => (st, .err "Employee not found")
  | some record =>
    let record :=
      match a.ndaSigned with
      | some b => { record with compliance := { record.compliance with ndaSigned := b } }
      | none => record
    let record :=
      match a.idVerified with
      | some b => { record with compliance := { record.compliance with idVerified := b } }
      | none => record
    let record :=
      match a.backgroundCheck with
      | some b => { record with compliance := { record.compliance with backgroundCheck := b } }
      | none => record
    let record :=
      { record with auditTrail := record.auditTrail ++
          [⟨now, "Compliance Check", "Compliance System",
        "NDA: " ++ boolStr record.compliance.ndaSigned ++
        ", ID: " ++ boolStr record.compliance.idVerified ++
        ", Background: " ++ boolStr record.compliance.backgroundCheck⟩] }
    let allCompliant := record.compliance.ndaSigned && record.compliance.idVerified &&
      record.compliance.backgroundCheck
    ({ st with onb := mapSet st.onb a.employeeId record },
     .complianceOnbOk a.employeeId record.compliance allCompliant
       (if allCompliant then "All compliance checks passed" else "Compliance checks incomplete"))

/-- `complete_onboarding` handler. -/
def completeOnboarding (employeeId : String) (completedBy : String) (now : Nat) (st : Store) :
    Store × ToolResult :=
  match List.lookup employeeId st.onb with
  | none => (st, .err "Employee not found")
  | some record =>
    let allSystemsProvisioned := record.systemProvisioning.hrms &&
      record.systemProvisioning.email && record.systemProvisioning.network &&
      record.systemProvisioning.projectTools
    let allCompliant := record.compliance.ndaSigned && record.compliance.idVerified &&
      record.compliance.backgroundCheck
    let financeEnrolled := record.financeEnrollment.payroll && record.financeEnrollment.benefits
    let allApproved := record.approvals.hr.approved && record.approvals.manager.approved
    if !allSystemsProvisioned || !allCompliant || !financeEnrolled || !allApproved then
      (st, .completeOnbFailed "Cannot complete onboarding - requirements not met"
        ⟨allApproved, allSystemsProvisioned, allCompliant, financeEnrolled⟩)
    else
      let record := { record with status := .Completed, auditTrail := record.auditTrail ++
        [⟨now, "Onboarding Completed", completedBy,
          "Onboarding process completed for " ++ record.employee.name⟩] }
      ({ st with onb := mapSet st.onb employeeId record },
       .completeOnbOk employeeId .Completed
         ("Onboarding completed successfully for " ++ record.employee.name) now
         ["Email sent to " ++ record.employee.email,
          "Manager " ++ record.employee.manager ++ " notified",
          "HR team notified"])

/-- `initiate_offboarding` handler.  The caller-supplied `employeeId` keys the
store; an existing record under that id is overwritten by `Map.set`. -/
def initiateOffboarding (a : InitiateOffArgs) (now : Nat) (st : Store) : Store × ToolResult :=
  let record : OffboardingRecord :=
    { employeeId := a.employeeId
      employeeName := a.employeeName
      lastWorkingDay := a.lastWorkingDay
      department := a.department
      reason := a.reason
      manager := a.manager
      status := .Initiated
      initiatedBy := a.initiatedBy
      initiatedDate := now
      approvals := ⟨⟨false, none, none⟩, ⟨false, none, none⟩⟩
      systemDeprovisioning := ⟨false, false, false, false⟩
      compliance := ⟨false, false, false⟩
      finalPayroll := ⟨false, false⟩
      auditTrail := [⟨now, "Offboarding Initiated", a.initiatedBy,
        "Offboarding started for " ++ a.employeeName ++ ". Reason: " ++ a.reason⟩] }
  ({ st with off := mapSet st.off a.employeeId record },
   .initiateOffOk a.employeeId .Initiated
     ("Offboarding process initiated for " ++ a.employeeName) a.lastWorkingDay
     ["Manager Approval", "HR Approval"])

/-- `approve_offboarding` handler.  Note: unlike `approve_onboarding`, there is
no `else if (!approved)` branch reverting the status to Pending Approval. -/
def approveOffboarding (a : ApproveOffArgs) (now : Nat) (st : Store) : Store × ToolResult :=
  match List.lookup a.employeeId st.off with
  | none => (st, .err "Offboarding record not found")
  | some record =>
    let slot : ApprovalSlot := ⟨a.approved, some a.approverName, some now⟩
    let record :=
      match a.approverRole with
      | .manager => { record with approvals := { record.approvals with manager := slot } }
      | .hr => { record with approvals := { record.approvals with hr := slot } }
    let record :=
      { record with auditTrail := record.auditTrail ++
          [⟨now, a.approverRole.upper ++ " " ++ (if a.approved then "Approved" else "Rejected"),
            a.approverName,
            orDefault a.comments (a.approverRole.str ++ " " ++
              (if a.approved then "approved" else "rejected") ++ " offboarding")⟩] }
    let record :=
      if record.approvals.manager.approved && record.approvals.hr.approved then
        { record with status := .Approved }
      else
        record
    ({ st with off := mapSet st.off a.employeeId record },
     .approveOffOk a.employeeId a.approverRole.str a.approved record.status
       (a.approverRole.upper ++ " " ++ (if a.approved then "approved" else "rejected") ++
         " offboarding for " ++ record.employeeName)
       (if record.status = .Approved then
          ["System Deprovisioning", "Compliance Checks", "Final Payroll"]
        else ["Pending other approvals"]))

/-- `deprovision_systems` handler. -/
def deprovisionSystems (employeeId : String) (systems : List String) (now : Nat) (st : Store) :
    Store × ToolResult :=
  match List.lookup employeeId st.off with
  | none => (st, .err "Offboarding record not found")
  | some record =>
    let record := { record with
      systemDeprovisioning := systems.foldl applySystem record.systemDeprovisioning }
    let record :=
      { record with auditTrail := record.auditTrail ++
          [(⟨now, "Systems Deprovisioned", "IT System",
            "Deprovisioned: " ++ String.intercalate ", " systems⟩ : AuditEntry)] }
    let record := { record with status := .InProgress }
    ({ st with off := mapSet st.off employeeId record },
     .deprovisionOk employeeId systems record.systemDeprovisioning
       ("Systems deprovisioned for " ++ record.employeeName))

/-- `process_final_payroll` handler. -/
def processFinalPayroll (employeeId : String) (processPayroll : Bool) (terminateBens : Bool)
    (now : Nat) (st : Store) : Store × ToolResult :=
  match List.lookup employeeId st.off with
  | none => (st, .err "Offboarding record not found")
  | some record =>
    let record :=
      if processPayroll then
        { record with finalPayroll := { record.finalPayroll with processed := true } }
      else record
    let record :=
      if terminateBens then
        { record with finalPayroll := { record.finalPayroll with benefitsTerminated := true } }
      else record
    let record :=
      { record with auditTrail := record.auditTrail ++
          [⟨now, "Final Payroll Processing", "Finance System",
        "Final Payroll: " ++ boolStr processPayroll ++
        ", Benefits Terminated: " ++ boolStr terminateBens⟩] }
    ({ st with off := mapSet st.off employeeId record },
     .finalPayrollOk employeeId record.finalPayroll
       ("Final payroll processing completed for " ++ record.employeeName))

/-- `check_offboarding_compliance` handler. -/
def checkOffboardingCompliance (a : OffComplianceArgs) (now : Nat) (st : Store) :
    Store × ToolResult :=
  match List.lookup a.employeeId st.off with
  | none => (st, .err "Offboarding record not found")
  | some record =>
    let record :=
      match a.exitFormSubmitted with
      | some b => { record with compliance := { record.compliance with exitFormSubmitted := b } }
      | none => record
    let record :=
      match a.assetsReturned with
      | some b => { record with compliance := { record.compliance with assetsReturned := b } }
      | none => record
    let record :=
      match a.clearanceCertificate with
      | some b =>
        { record with compliance := { record.compliance with clearanceCertificate := b } }
      | none => record
    let record :=
      { record with auditTrail := record.auditTrail ++
          [⟨now, "Compliance Check", "Compliance System",
        "Exit Form: " ++ boolStr record.compliance.exitFormSubmitted ++
        ", Assets: " ++ boolStr record.compliance.assetsReturned ++
        ", Clearance: " ++ boolStr record.compliance.clearanceCertificate⟩] }
    let allCompliant := record.compliance.exitFormSubmitted &&
      record.compliance.assetsReturned && record.compliance.clearanceCertificate
    ({ st with off := mapSet st.off a.employeeId record },
     .complianceOffOk a.employeeId record.compliance allCompliant
       (if allCompliant then "All compliance checks passed" else "Compliance checks incomplete"))

/-- `complete_offboarding` handler. -/
def completeOffboarding (employeeId : String) (completedBy : String) (now : Nat) (st : Store) :
    Store × ToolResult :=
  match List.lookup employeeId st.off with
  | none => (st, .err "Offboarding record not found")
  | some record =>
    let allSystemsDeprovisioned := record.systemDeprovisioning.hrms &&
      record.systemDeprovisioning.email && record.systemDeprovisioning.network &&
      record.systemDeprovisioning.projectTools
    let allCompliant := record.compliance.exitFormSubmitted &&
      record.compliance.assetsReturned && record.compliance.clearanceCertificate
    let payrollProcessed := record.finalPayroll.processed && record.finalPayroll.benefitsTerminated
    let allApproved := record.approvals.manager.approved && record.approvals.hr.approved
    if !allSystemsDeprovisioned || !allCompliant || !payrollProcessed || !allApproved then
      (st, .completeOffFailed "Cannot complete offboarding - requirements not met"
        ⟨allApproved, allSystemsDeprovisioned, allCompliant, payrollProcessed⟩)
    else
      let record := { record with status := .Completed, auditTrail := record.auditTrail ++
        [⟨now, "Offboarding Completed", completedBy,
          "Offboarding process completed for " ++ record.employeeName⟩] }
      ({ st with off := mapSet st.off employeeId record },
       .completeOffOk employeeId .Completed
         ("Offboarding completed successfully for " ++ record.employeeName) now
         ["Employee notified",
          "Manager " ++ record.manager ++ " notified",
          "HR team notified"])

/-- `get_onboarding_status` handler (read-only). -/
def getOnboardingStatus (employeeId : String) (st : Store) : Store × ToolResult :=
  match List.lookup employeeId st.onb with
  | none => (st, .err "Employee not found")
  | some record =>
    (st, .onbStatusOk employeeId record.employee record.status record.approvals
      record.systemProvisioning record.compliance record.financeEnrollment record.auditTrail)

/-- `get_offboarding_status` handler (read-only). -/
def getOffboardingStatus (employeeId : String) (st : Store) : Store × ToolResult :=
  match List.lookup employeeId st.off with
  | none => (st, .err "Offboarding record not found")
  | some record =>
    (st, .offStatusOk employeeId record.employeeName record.status record.lastWorkingDay
      record.approvals record.systemDeprovisioning record.compliance record.finalPayroll
      record.auditTrail)

/-- Scan of the onboarding store inside `list_pending_approvals`. -/
def pendingOnbScan (m : List (String × OnboardingRecord)) : List PendingOnbEntry :=
  m.filterMap fun p =>
    let record := p.2
    if !record.approvals.hr.approved || !record.approvals.manager.approved then
      some ⟨record.employeeId, record.employee.name, record.status,
        !record.approvals.hr.approved, !record.approvals.manager.approved⟩
    else none

/-- Scan of the offboarding store inside `list_pending_approvals`. -/
def pendingOffScan (m : List (String × OffboardingRecord)) : List PendingOffEntry :=
  m.filterMap fun p =>
    let record := p.2
    if !record.approvals.manager.approved || !record.approvals.hr.approved then
      some ⟨record.employeeId, record.employeeName, record.status, record.lastWorkingDay,
        !record.approvals.manager.approved, !record.approvals.hr.approved⟩
    else none

/-- `list_pending_approvals` handler (read-only). -/
def listPendingApprovals (ty : ListType) (st : Store) : Store × ToolResult :=
  let pendingOnboarding := if ty = .onboarding ∨ ty = .all then pendingOnbScan st.onb else []
  let pendingOffboarding := if ty = .offboarding ∨ ty = .all then pendingOffScan st.off else []
  (st, .pendingOk pendingOnboarding pendingOffboarding
    (pendingOnboarding.length + pendingOffboarding.length))

/-- `get_employee_details` handler (read-only): onboarding store first. -/
def getEmployeeDetails (employeeId : String) (st : Store) : Store × ToolResult :=
  match List.lookup employeeId st.onb with
  | some record => (st, .employeeDetailsOnb record.employee record.status)
  | none =>
    match List.lookup employeeId st.off with
    | some record =>
      (st, .employeeDetailsOff record.employeeId record.employeeName record.department
        record.lastWorkingDay record.status)
    | none => (st, .err "Employee not found")

/-- Dispatch over the seventeen declared tools (switch cases of the CallToolRequestSchema handler). -/
def handleTool (c : ToolCall) (now : Nat) (st : Store) : Store × ToolResult :=
  match c with
  | .initiateOnboarding freshId args => initiateOnboarding freshId args now st
  | .validateOnboardingData employeeId => validateOnboardingData employeeId st
  | .approveOnboarding args => approveOnboarding args now st
  | .provisionSystems employeeId systems => provisionSystems employeeId systems now st
  | .enrollBenefits employeeId p b => enrollBenefits employeeId p b now st
  | .checkOnboardingCompliance args => checkOnboardingCompliance args now st
  | .completeOnboarding employeeId completedBy => completeOnboarding employeeId completedBy now st
  | .initiateOffboarding args => initiateOffboarding args now st
  | .approveOffboarding args => approveOffboarding args now st
  | .deprovisionSystems employeeId systems => deprovisionSystems employeeId systems now st
  | .processFinalPayroll employeeId p t => processFinalPayroll employeeId p t now st
  | .checkOffboardingCompliance args => checkOffboardingCompliance args now st
  | .completeOffboarding employeeId completedBy => completeOffboarding employeeId completedBy now st
  | .getOnboardingStatus employeeId => getOnboardingStatus employeeId st
  | .getOffboardingStatus employeeId => getOffboardingStatus employeeId st
  | .listPendingApprovals ty => listPendingApprovals ty st
  | .getEmployeeDetails employeeId => getEmployeeDetails employeeId st

end Sdk

theorem lookup_mapSet_self {α : Type} (m : List (String × α)) (k : String) (v : α) :
    List.lookup k (mapSet m k v) = some v := by
  induction m with
  | nil => simp [mapSet, List.lookup]
  | cons p rest ih =>
    obtain ⟨k0, v0⟩ := p
    by_cases hk : k0 = k
    · subst hk
      simp [mapSet, List.lookup]
    · have hbeq : (k == k0) = false := by
        simp [Ne.symm hk]
      simp [mapSet, hk, List.lookup, hbeq, ih]

/-- Sample data used to instantiate witness and counterexample theorems. -/
def sampleEmployee : Employee :=
  ⟨"EMP-1", "Alice", "a@x.com", "2024-01-01", "Eng", "SWE", "Bob", "Remote", "555-0100",
    "Full-time", none⟩

/-- An onboarding record with every completion precondition satisfied. -/
def readyOnbRecord : OnboardingRecord :=
  { employeeId := "EMP-1"
    employee := sampleEmployee
    status := .InProgress
    initiatedBy := "HR1"
    initiatedDate := 0
    approvals := ⟨⟨true, some "Hana", some 1⟩, ⟨true, some "Bob", some 2⟩⟩
    systemProvisioning := ⟨true, true, true, true⟩
    compliance := ⟨true, true, true⟩
    financeEnrollment := ⟨true, true⟩
    auditTrail := [⟨0, "Onboarding Initiated", "HR1", "Onboarding started for Alice"⟩] }

/-- An offboarding record with every completion precondition satisfied. -/
def readyOffRecord : OffboardingRecord :=
  { employeeId := "EMP-2"
    employeeName := "Carol"
    lastWorkingDay := "2024-06-30"
    department := "Eng"
    reason := "Resignation"
    manager := "Bob"
    status := .InProgress
    initiatedBy := "HR1"
    initiatedDate := 0
    approvals := ⟨⟨true, some "Bob", some 1⟩, ⟨true, some "Hana", some 2⟩⟩
    systemDeprovisioning := ⟨true, true, true, true⟩
    compliance := ⟨true, true, true⟩
    finalPayroll := ⟨true, true⟩
    auditTrail := [⟨0, "Offboarding Initiated", "HR1",
      "Offboarding started for Carol. Reason: Resignation"⟩] }

/-- A freshly initiated offboarding record, no approvals or flags yet. -/
def freshOffRecord : OffboardingRecord :=
  { employeeId := "EMP-2"
    employeeName := "Carol"
    lastWorkingDay := "2024-06-30"
    department := "Eng"
    reason := "Resignation"
    manager := "Bob"
    status := .Initiated
    initiatedBy := "HR1"
    initiatedDate := 0
    approvals := ⟨⟨false, none, none⟩, ⟨false, none, none⟩⟩
    systemDeprovisioning := ⟨false, false, false, false⟩
    compliance := ⟨false, false, false⟩
    finalPayroll := ⟨false, false⟩
    auditTrail := [⟨0, "Offboarding Initiated", "HR1",
      "Offboarding started for Carol. Reason: Resignation"⟩] }

/-- A freshly initiated onboarding record, no approvals or flags yet. -/
def freshOnbRecord : OnboardingRecord :=
  { employeeId := "EMP-1"
    employee := sampleEmployee
    status := .Initiated
    initiatedBy := "HR1"
    initiatedDate := 0
    approvals := ⟨⟨false, none, none⟩, ⟨false, none, none⟩⟩
    systemProvisioning := ⟨false, false, false, false⟩
    compliance := ⟨false, false, false⟩
    financeEnrollment := ⟨false, false⟩
    auditTrail := [⟨0, "Onboarding Initiated", "HR1", "Onboarding started for Alice"⟩] }

/-- Claim C9: the two in-repository implementations of the engine — the
mcp-express-adapter tool handlers and the switch-based MCP SDK call handler —
are behaviorally equivalent: for every operation, argument set, timestamp and
starting store state, both produce the same record-store state and the same
structured result payload. -/
theorem adapter_sdk_equivalent (c : ToolCall) (now : Nat) (st : Store) :
    Adapter.handleTool c now st = Sdk.handleTool c now st := by
  cases c <;> rfl

/-- Claim C7: getEmployeeDetails returns the onboarding record tagged
source=onboarding whenever the id is in the onboarding store (even if it is
also in the offboarding store), the offboarding record tagged
source=offboarding when the id is only in the offboarding store, and a
not-found failure when absent from both. -/
theorem employee_details_precedence :
    (∀ (st : Store) (id : String) (r : OnboardingRecord),
      List.lookup id st.onb = some r →
      Adapter.getEmployeeDetails id st = (st, .employeeDetailsOnb r.employee r.status)) ∧
    (∀ (st : Store) (id : String) (q : OffboardingRecord),
      List.lookup id st.onb = none →
      List.lookup id st.off = some q →
      Adapter.getEmployeeDetails id st =
        (st, .employeeDetailsOff q.employeeId q.employeeName q.department
          q.lastWorkingDay q.status)) ∧
    (∀ (st : Store) (id : String),
      List.lookup id st.onb = none →
      List.lookup id st.off = none →
      Adapter.getEmployeeDetails id st = (st, .err "Employee not found")) := by
  refine ⟨?_, ?_, ?_⟩
  · intro st id r h
    unfold Adapter.getEmployeeDetails
    rw [h]
  · intro st id q h1 h2
    unfold Adapter.getEmployeeDetails
    rw [h1, h2]
  · intro st id h1 h2
    unfold Adapter.getEmployeeDetails
    rw [h1, h2]

/-- Witness for C7: an id present in both stores resolves to onboarding data;
an id only in the offboarding store resolves to offboarding data; an unknown
id fails. -/
theorem employee_details_precedence_witness :
    Adapter.getEmployeeDetails "EMP-1"
        ⟨[("EMP-1", readyOnbRecord)], [("EMP-1", freshOffRecord)]⟩ =
      (⟨[("EMP-1", readyOnbRecord)], [("EMP-1", freshOffRecord)]⟩,
        .employeeDetailsOnb readyOnbRecord.employee readyOnbRecord.status) ∧
    Adapter.getEmployeeDetails "EMP-2" ⟨[], [("EMP-2", freshOffRecord)]⟩ =
      (⟨[], [("EMP-2", freshOffRecord)]⟩,
        .employeeDetailsOff freshOffRecord.employeeId freshOffRecord.employeeName
          freshOffRecord.department freshOffRecord.lastWorkingDay freshOffRecord.status) ∧
    Adapter.getEmployeeDetails "EMP-9" ⟨[], []⟩ = (⟨[], []⟩, .err "Employee not found") :=
  ⟨employee_details_precedence.1 _ "EMP-1" readyOnbRecord rfl,
   employee_details_precedence.2.1 _ "EMP-2" freshOffRecord rfl rfl,
   employee_details_precedence.2.2 _ "EMP-9" rfl rfl⟩

/-- Claim C10: initiate_offboarding never fails for a duplicate identifier;
with an employeeId already present in the offboarding store it replaces the
existing record wholesale with a freshly seeded one — approvals unset, all
flags false, status Initiated, audit trail of length 1 — discarding the prior
record's history, and returns a success payload. -/
theorem initiate_offboarding_overwrites (st : Store) (a : InitiateOffArgs) (now : Nat)
    (h : (List.lookup a.employeeId st.off).isSome = true) :
    List.lookup a.employeeId (Adapter.initiateOffboarding a now st).1.off = some
      { employeeId := a.employeeId
        employeeName := a.employeeName
        lastWorkingDay := a.lastWorkingDay
        department := a.department
        reason := a.reason
        manager := a.manager
        status := .Initiated
        initiatedBy := a.initiatedBy
        initiatedDate := now
        approvals := ⟨⟨false, none, none⟩, ⟨false, none, none⟩⟩
        systemDeprovisioning := ⟨false, false, false, false⟩
        compliance := ⟨false, false, false⟩
        finalPayroll := ⟨false, false⟩
        auditTrail := [⟨now, "Offboarding Initiated", a.initiatedBy,
          "Offboarding started for " ++ a.employeeName ++ ". Reason: " ++ a.reason⟩] } ∧
    (Adapter.initiateOffboarding a now st).2 =
      .initiateOffOk a.employeeId .Initiated
        ("Offboarding process initiated for " ++ a.employeeName) a.lastWorkingDay
        ["Manager Approval", "HR Approval"] ∧
    (Adapter.initiateOffboarding a now st).2.isSuccess = true := by
  refine ⟨?_, rfl, rfl⟩
  unfold Adapter.initiateOffboarding
  exact lookup_mapSet_self _ _ _

/-- Witness for C10: re-initiating an id that already holds a fully processed
offboarding record resets it to the seeded state. -/
theorem initiate_offboarding_overwrites_witness :
    List.lookup "EMP-2" (Adapter.initiateOffboarding
        ⟨"EMP-2", "Carol", "2024-06-30", "Eng", "Resignation", "Bob", "HR1"⟩ 0
        ⟨[], [("EMP-2", readyOffRecord)]⟩).1.off = some freshOffRecord ∧
    (Adapter.initiateOffboarding
        ⟨"EMP-2", "Carol", "2024-06-30", "Eng", "Resignation", "Bob", "HR1"⟩ 0
        ⟨[], [("EMP-2", readyOffRecord)]⟩).2.isSuccess = true := by
  have h := initiate_offboarding_overwrites ⟨[], [("EMP-2", readyOffRecord)]⟩
    ⟨"EMP-2", "Carol", "2024-06-30", "Eng", "Resignation", "Bob", "HR1"⟩ 0 (by decide)
  exact ⟨h.1, h.2.2⟩

/-- The onboarding completion preconditions as the spec enumerates them:
both role approvals and every provisioning, compliance and finance flag. -/
def onbPre (r : OnboardingRecord) : Prop :=
  r.approvals.hr.approved = true ∧ r.approvals.manager.approved = true ∧
  r.systemProvisioning.hrms = true ∧ r.systemProvisioning.email = true ∧
  r.systemProvisioning.network = true ∧ r.systemProvisioning.projectTools = true ∧
  r.compliance.ndaSigned = true ∧ r.compliance.idVerified = true ∧
  r.compliance.backgroundCheck = true ∧
  r.financeEnrollment.payroll = true ∧ r.financeEnrollment.benefits = true

instance (r : OnboardingRecord) : Decidable (onbPre r) := by
  unfold onbPre
  infer_instance

/-- The offboarding completion preconditions as the spec enumerates them. -/
def offPre (r : OffboardingRecord) : Prop :=
  r.approvals.manager.approved = true ∧ r.approvals.hr.approved = true ∧
  r.systemDeprovisioning.hrms = true ∧ r.systemDeprovisioning.email = true ∧
  r.systemDeprovisioning.network = true ∧ r.systemDeprovisioning.projectTools = true ∧
  r.compliance.exitFormSubmitted = true ∧ r.compliance.assetsReturned = true ∧
  r.compliance.clearanceCertificate = true ∧
  r.finalPayroll.processed = true ∧ r.finalPayroll.benefitsTerminated = true

instance (r : OffboardingRecord) : Decidable (offPre r) := by
  unfold offPre
  infer_instance

/-- Claim C1: complete_onboarding / complete_offboarding succeeds iff both role
approvals and every provisioning/deprovisioning, compliance and finance/final
payroll flag are true; on success status becomes Completed, exactly one audit
entry with action "Onboarding Completed" / "Offboarding Completed" and actor
completedBy is appended, and a list of notification descriptions is returned. -/
theorem completion_gate_spec :
    (∀ (st : Store) (id cb : String) (now : Nat) (r : OnboardingRecord),
      List.lookup id st.onb = some r →
      (((Adapter.completeOnboarding id cb now st).2.isSuccess = true) ↔ onbPre r) ∧
      (onbPre r →
        Adapter.completeOnboarding id cb now st =
          ({ st with onb := mapSet st.onb id ({ r with status := .Completed, auditTrail := r.auditTrail ++ [⟨now, "Onboarding Completed", cb, "Onboarding process completed for " ++ r.employee.name⟩] }) },
            .completeOnbOk id .Completed
              ("Onboarding completed successfully for " ++ r.employee.name) now
              ["Email sent to " ++ r.employee.email,
               "Manager " ++ r.employee.manager ++ " notified",
               "HR team notified"]))) ∧
    (∀ (st : Store) (id cb : String) (now : Nat) (r : OffboardingRecord),
      List.lookup id st.off = some r →
      (((Adapter.completeOffboarding id cb now st).2.isSuccess = true) ↔ offPre r) ∧
      (offPre r →
        Adapter.completeOffboarding id cb now st =
          ({ st with off := mapSet st.off id ({ r with status := .Completed, auditTrail := r.auditTrail ++ [⟨now, "Offboarding Completed", cb, "Offboarding process completed for " ++ r.employeeName⟩] }) },
            .completeOffOk id .Completed
              ("Offboarding completed successfully for " ++ r.employeeName) now
              ["Employee notified",
               "Manager " ++ r.manager ++ " notified",
               "HR team notified"]))) := by
  constructor
  · intro st id cb now r h
    by_cases hp : onbPre r
    · obtain ⟨h1, h2, h3, h4, h5, h6, h7, h8, h9, h10, h11⟩ := hp
      simp only [Adapter.completeOnboarding, h, h1, h2, h3, h4, h5, h6, h7, h8, h9, h10, h11]
      refine ⟨?_, fun _ => rfl⟩
      simp [ToolResult.isSuccess, onbPre, h1, h2, h3, h4, h5, h6, h7, h8, h9, h10, h11]
    · have hcond : (!(r.systemProvisioning.hrms && r.systemProvisioning.email &&
          r.systemProvisioning.network && r.systemProvisioning.projectTools) ||
          !(r.compliance.ndaSigned && r.compliance.idVerified &&
            r.compliance.backgroundCheck) ||
          !(r.financeEnrollment.payroll && r.financeEnrollment.benefits) ||
          !(r.approvals.hr.approved && r.approvals.manager.approved)) = true := by
        by_contra hc
        apply hp
        simp only [Bool.not_eq_true, Bool.or_eq_false_iff, Bool.not_eq_false',
          Bool.and_eq_true] at hc
        unfold onbPre
        tauto
      simp only [Adapter.completeOnboarding, h, hcond]
      refine ⟨?_, fun hpp => absurd hpp hp⟩
      simp [ToolResult.isSuccess, hp]
  · intro st id cb now r h
    by_cases hp : offPre r
    · obtain ⟨h1, h2, h3, h4, h5, h6, h7, h8, h9, h10, h11⟩ := hp
      simp only [Adapter.completeOffboarding, h, h1, h2, h3, h4, h5, h6, h7, h8, h9, h10, h11]
      refine ⟨?_, fun _ => rfl⟩
      simp [ToolResult.isSuccess, offPre, h1, h2, h3, h4, h5, h6, h7, h8, h9, h10, h11]
    · have hcond : (!(r.systemDeprovisioning.hrms && r.systemDeprovisioning.email &&
          r.systemDeprovisioning.network && r.systemDeprovisioning.projectTools) ||
          !(r.compliance.exitFormSubmitted && r.compliance.assetsReturned &&
            r.compliance.clearanceCertificate) ||
          !(r.finalPayroll.processed && r.finalPayroll.benefitsTerminated) ||
          !(r.approvals.manager.approved && r.approvals.hr.approved)) = true := by
        by_contra hc
        apply hp
        simp only [Bool.not_eq_true, Bool.or_eq_false_iff, Bool.not_eq_false',
          Bool.and_eq_true] at hc
        unfold offPre
        tauto
      simp only [Adapter.completeOffboarding, h, hcond]
      refine ⟨?_, fun hpp => absurd hpp hp⟩
      simp [ToolResult.isSuccess, hp]

/-- Witness for C1: on records satisfying every precondition, both completion
calls succeed. -/
theorem completion_gate_spec_witness :
    (Adapter.completeOnboarding "EMP-1" "HR9" 5
        ⟨[("EMP-1", readyOnbRecord)], []⟩).2.isSuccess = true ∧
    (Adapter.completeOffboarding "EMP-2" "HR9" 5
        ⟨[], [("EMP-2", readyOffRecord)]⟩).2.isSuccess = true :=
  ⟨((completion_gate_spec.1 ⟨[("EMP-1", readyOnbRecord)], []⟩ "EMP-1" "HR9" 5 readyOnbRecord
      rfl).1).mpr (by decide),
   ((completion_gate_spec.2 ⟨[], [("EMP-2", readyOffRecord)]⟩ "EMP-2" "HR9" 5 readyOffRecord
      rfl).1).mpr (by decide)⟩

/-- Claim C2: when any completion precondition is false, complete_onboarding /
complete_offboarding performs no mutation — the store (hence status, flags,
approvals and audit trail) is returned unchanged — and returns a failure
result whose checklist reports, for each precondition group, whether it held. -/
theorem completion_failure_atomic :
    (∀ (st : Store) (id cb : String) (now : Nat) (r : OnboardingRecord),
      List.lookup id st.onb = some r → ¬onbPre r →
      Adapter.completeOnboarding id cb now st =
        (st, .completeOnbFailed "Cannot complete onboarding - requirements not met"
          ⟨r.approvals.hr.approved && r.approvals.manager.approved,
           r.systemProvisioning.hrms && r.systemProvisioning.email &&
             r.systemProvisioning.network && r.systemProvisioning.projectTools,
           r.compliance.ndaSigned && r.compliance.idVerified && r.compliance.backgroundCheck,
           r.financeEnrollment.payroll && r.financeEnrollment.benefits⟩)) ∧
    (∀ (st : Store) (id cb : String) (now : Nat) (r : OffboardingRecord),
      List.lookup id st.off = some r → ¬offPre r →
      Adapter.completeOffboarding id cb now st =
        (st, .completeOffFailed "Cannot complete offboarding - requirements not met"
          ⟨r.approvals.manager.approved && r.approvals.hr.approved,
           r.systemDeprovisioning.hrms && r.systemDeprovisioning.email &&
             r.systemDeprovisioning.network && r.systemDeprovisioning.projectTools,
           r.compliance.exitFormSubmitted && r.compliance.assetsReturned &&
             r.compliance.clearanceCertificate,
           r.finalPayroll.processed && r.finalPayroll.benefitsTerminated⟩)) := by
  constructor
  · intro st id cb now r h hp
    have hcond : (!(r.systemProvisioning.hrms && r.systemProvisioning.email &&
        r.systemProvisioning.network && r.systemProvisioning.projectTools) ||
        !(r.compliance.ndaSigned && r.compliance.idVerified &&
          r.compliance.backgroundCheck) ||
        !(r.financeEnrollment.payroll && r.financeEnrollment.benefits) ||
        !(r.approvals.hr.approved && r.approvals.manager.approved)) = true := by
      by_contra hc
      apply hp
      simp only [Bool.not_eq_true, Bool.or_eq_false_iff, Bool.not_eq_false',
        Bool.and_eq_true] at hc
      unfold onbPre
      tauto
    simp only [Adapter.completeOnboarding, h, hcond]
    rfl
  · intro st id cb now r h hp
    have hcond : (!(r.systemDeprovisioning.hrms && r.systemDeprovisioning.email &&
        r.systemDeprovisioning.network && r.systemDeprovisioning.projectTools) ||
        !(r.compliance.exitFormSubmitted && r.compliance.assetsReturned &&
          r.compliance.clearanceCertificate) ||
        !(r.finalPayroll.processed && r.finalPayroll.benefitsTerminated) ||
        !(r.approvals.manager.approved && r.approvals.hr.approved)) = true := by
      by_contra hc
      apply hp
      simp only [Bool.not_eq_true, Bool.or_eq_false_iff, Bool.not_eq_false',
        Bool.and_eq_true] at hc
      unfold offPre
      tauto
    simp only [Adapter.completeOffboarding, h, hcond]
    rfl

/-- Witness for C2: a freshly initiated record fails every precondition group
and completion leaves the store untouched while reporting the checklist. -/
theorem completion_failure_atomic_witness :
    Adapter.completeOnboarding "EMP-1" "HR9" 5 ⟨[("EMP-1", freshOnbRecord)], []⟩ =
      (⟨[("EMP-1", freshOnbRecord)], []⟩,
        .completeOnbFailed "Cannot complete onboarding - requirements not met"
          ⟨false, false, false, false⟩) ∧
    Adapter.completeOffboarding "EMP-2" "HR9" 5 ⟨[], [("EMP-2", freshOffRecord)]⟩ =
      (⟨[], [("EMP-2", freshOffRecord)]⟩,
        .completeOffFailed "Cannot complete offboarding - requirements not met"
          ⟨false, false, false, false⟩) :=
  ⟨completion_failure_atomic.1 ⟨[("EMP-1", freshOnbRecord)], []⟩ "EMP-1" "HR9" 5 freshOnbRecord
      rfl (by decide),
   completion_failure_atomic.2 ⟨[], [("EMP-2", freshOffRecord)]⟩ "EMP-2" "HR9" 5 freshOffRecord
      rfl (by decide)⟩

/-- Counterexample to C3 as stated: (1) rejecting an offboarding approval on a
freshly initiated record leaves its status Initiated instead of setting
Pending Approval — approve_offboarding has no rejection branch; (2) for an
onboarding record whose status is Approved while hr is not approved, a manager
approval leaves status Approved although both roles do not show approved. -/
theorem approval_rejection_cex :
    ((List.lookup "EMP-2" (Adapter.approveOffboarding ⟨"EMP-2", .hr, "Hana", false, none⟩ 3
        ⟨[], [("EMP-2", freshOffRecord)]⟩).1.off).map fun q => q.status) =
      some Status.Initiated ∧
    Status.Initiated ≠ Status.PendingApproval ∧
    ((List.lookup "EMP-1" (Adapter.approveOnboarding ⟨"EMP-1", .manager, "Bob", true, none⟩ 4
        ⟨[("EMP-1", { freshOnbRecord with status := .Approved, approvals := ⟨⟨false, none, none⟩, ⟨true, some "Bob", some 1⟩⟩ })], []⟩).1.onb).map
        fun q => (q.status, q.approvals.hr.approved)) =
      some (Status.Approved, false) := by
  refine ⟨by decide, by decide, by decide⟩

/-- Claim C3 amended: for onboarding records a rejection always sets status to
Pending Approval and any call after which both roles show approved yields
status Approved; conversely status can be Approved after an onboarding call
only if both roles approved or the status was already Approved beforehand.
For offboarding records the status is set to Approved when both roles show
approved and is otherwise left unchanged; in particular a rejection never
changes offboarding status. -/
theorem approval_status_rules :
    (∀ (st : Store) (a : ApproveOnbArgs) (now : Nat) (r r1 : OnboardingRecord),
      List.lookup a.employeeId st.onb = some r →
      List.lookup a.employeeId (Adapter.approveOnboarding a now st).1.onb = some r1 →
      (a.approved = false → r1.status = .PendingApproval) ∧
      (r1.approvals.hr.approved = true → r1.approvals.manager.approved = true →
        r1.status = .Approved) ∧
      (r1.status = .Approved →
        (r1.approvals.hr.approved = true ∧ r1.approvals.manager.approved = true) ∨
        r.status = .Approved)) ∧
    (∀ (st : Store) (a : ApproveOffArgs) (now : Nat) (r r1 : OffboardingRecord),
      List.lookup a.employeeId st.off = some r →
      List.lookup a.employeeId (Adapter.approveOffboarding a now st).1.off = some r1 →
      (r1.approvals.manager.approved = true → r1.approvals.hr.approved = true →
        r1.status = .Approved) ∧
      (¬(r1.approvals.manager.approved = true ∧ r1.approvals.hr.approved = true) →
        r1.status = r.status) ∧
      (a.approved = false → r1.status = r.status)) := by
  constructor
  · intro st a now r r1 h h1
    obtain ⟨id, role, nm, ap, cm⟩ := a
    simp only [Adapter.approveOnboarding, h, lookup_mapSet_self, Option.some.injEq] at h1
    subst h1
    cases role <;> cases ap <;>
      simp only [OnbRole.upper, OnbRole.str] <;>
      split_ifs <;>
      simp_all
  · intro st a now r r1 h h1
    obtain ⟨id, role, nm, ap, cm⟩ := a
    simp only [Adapter.approveOffboarding, h, lookup_mapSet_self, Option.some.injEq] at h1
    subst h1
    cases role <;> cases ap <;>
      simp only [OffRole.upper, OffRole.str] <;>
      split_ifs <;>
      simp_all

/-- Witness for the amended C3: an hr rejection on a fresh onboarding record
sets status Pending Approval. -/
theorem approval_status_rules_witness :
    ((List.lookup "EMP-1" (Adapter.approveOnboarding ⟨"EMP-1", .hr, "Hana", false, none⟩ 3
        ⟨[("EMP-1", freshOnbRecord)], []⟩).1.onb).map fun q => q.status) =
      some Status.PendingApproval := by
  obtain ⟨r1, hr1⟩ : ∃ r1, List.lookup "EMP-1" (Adapter.approveOnboarding
      ⟨"EMP-1", .hr, "Hana", false, none⟩ 3 ⟨[("EMP-1", freshOnbRecord)], []⟩).1.onb =
      some r1 := ⟨_, rfl⟩
  have hst := (approval_status_rules.1 ⟨[("EMP-1", freshOnbRecord)], []⟩
    ⟨"EMP-1", .hr, "Hana", false, none⟩ 3 freshOnbRecord r1 rfl hr1).1 rfl
  rw [hr1]
  simp [hst]

/-- Counterexample to C4: provision_systems on a Completed onboarding record
forces its status to In Progress, so Completed is not terminal. -/
theorem completed_not_terminal_cex :
    ((List.lookup "EMP-1" (Adapter.provisionSystems "EMP-1" ["email"] 7
        ⟨[("EMP-1", { readyOnbRecord with status := .Completed })], []⟩).1.onb).map
      fun q => q.status) = some Status.InProgress ∧
    Status.InProgress ≠ Status.Completed := by
  exact ⟨by decide, by decide⟩

/-- Claim C4 amended: Completed is not terminal.  The provisioning and
deprovisioning calls force any record — Completed included — to In Progress,
and approval calls can move a Completed record to Pending Approval or
Approved; the compliance, finance and completion calls never change a
Completed record's status. -/
theorem completed_status_effects :
    (∀ (st : Store) (id : String) (systems : List String) (now : Nat) (r : OnboardingRecord),
      List.lookup id st.onb = some r →
      ((List.lookup id (Adapter.provisionSystems id systems now st).1.onb).map
        fun q => q.status) = some Status.InProgress) ∧
    (∀ (st : Store) (id : String) (systems : List String) (now : Nat) (r : OffboardingRecord),
      List.lookup id st.off = some r →
      ((List.lookup id (Adapter.deprovisionSystems id systems now st).1.off).map
        fun q => q.status) = some Status.InProgress) ∧
    (∀ (st : Store) (a : OnbComplianceArgs) (now : Nat) (r : OnboardingRecord),
      List.lookup a.employeeId st.onb = some r → r.status = .Completed →
      ((List.lookup a.employeeId (Adapter.checkOnboardingCompliance a now st).1.onb).map
        fun q => q.status) = some Status.Completed) ∧
    (∀ (st : Store) (id : String) (p b : Bool) (now : Nat) (r : OnboardingRecord),
      List.lookup id st.onb = some r → r.status = .Completed →
      ((List.lookup id (Adapter.enrollBenefits id p b now st).1.onb).map
        fun q => q.status) = some Status.Completed) ∧
    (∀ (st : Store) (id cb : String) (now : Nat) (r : OnboardingRecord),
      List.lookup id st.onb = some r → r.status = .Completed →
      ((List.lookup id (Adapter.completeOnboarding id cb now st).1.onb).map
        fun q => q.status) = some Status.Completed) ∧
    (∀ (st : Store) (a : OffComplianceArgs) (now : Nat) (r : OffboardingRecord),
      List.lookup a.employeeId st.off = some r → r.status = .Completed →
      ((List.lookup a.employeeId (Adapter.checkOffboardingCompliance a now st).1.off).map
        fun q => q.status) = some Status.Completed) ∧
    (∀ (st : Store) (id : String) (p t : Bool) (now : Nat) (r : OffboardingRecord),
      List.lookup id st.off = some r → r.status = .Completed →
      ((List.lookup id (Adapter.processFinalPayroll id p t now st).1.off).map
        fun q => q.status) = some Status.Completed) ∧
    (∀ (st : Store) (id cb : String) (now : Nat) (r : OffboardingRecord),
      List.lookup id st.off = some r → r.status = .Completed →
      ((List.lookup id (Adapter.completeOffboarding id cb now st).1.off).map
        fun q => q.status) = some Status.Completed) ∧
    ((List.lookup "EMP-1" (Adapter.approveOnboarding ⟨"EMP-1", .hr, "Hana", false, none⟩ 8
        ⟨[("EMP-1", { readyOnbRecord with status := .Completed })], []⟩).1.onb).map
      fun q => q.status) = some Status.PendingApproval ∧
    ((List.lookup "EMP-2" (Adapter.approveOffboarding ⟨"EMP-2", .hr, "Hana", true, none⟩ 8
        ⟨[], [("EMP-2", { readyOffRecord with status := .Completed })]⟩).1.off).map
      fun q => q.status) = some Status.Approved := by
  refine ⟨?_, ?_, ?_, ?_, ?_, ?_, ?_, ?_, by decide, by decide⟩
  · intro st id systems now r h
    simp [Adapter.provisionSystems, h, lookup_mapSet_self]
  · intro st id systems now r h
    simp [Adapter.deprovisionSystems, h, lookup_mapSet_self]
  · intro st a now r h hst
    obtain ⟨id, nda, idv, bg⟩ := a
    cases nda <;> cases idv <;> cases bg <;>
      simp [Adapter.checkOnboardingCompliance, h, lookup_mapSet_self, hst]
  · intro st id p b now r h hst
    cases p <;> cases b <;>
      simp [Adapter.enrollBenefits, h, lookup_mapSet_self, hst]
  · intro st id cb now r h hst
    simp only [Adapter.completeOnboarding, h]
    split
    · simp [h, hst]
    · simp [lookup_mapSet_self]
  · intro st a now r h hst
    obtain ⟨id, ef, ar, cc⟩ := a
    cases ef <;> cases ar <;> cases cc <;>
      simp [Adapter.checkOffboardingCompliance, h, lookup_mapSet_self, hst]
  · intro st id p t now r h hst
    cases p <;> cases t <;>
      simp [Adapter.processFinalPayroll, h, lookup_mapSet_self, hst]
  · intro st id cb now r h hst
    simp only [Adapter.completeOffboarding, h]
    split
    · simp [h, hst]
    · simp [lookup_mapSet_self]

/-- Witness for the amended C4: finance enrollment on a Completed onboarding
record leaves its status Completed. -/
theorem completed_status_effects_witness :
    ((List.lookup "EMP-1" (Adapter.enrollBenefits "EMP-1" true true 9
        ⟨[("EMP-1", { readyOnbRecord with status := .Completed })], []⟩).1.onb).map
      fun q => q.status) = some Status.Completed :=
  completed_status_effects.2.2.2.1 ⟨[("EMP-1", { readyOnbRecord with status := .Completed })], []⟩
    "EMP-1" true true 9 { readyOnbRecord with status := .Completed } rfl rfl

/-- Counterexample to C5: check_onboarding_compliance overwrites flags with
the supplied booleans, so passing ndaSigned=false resets a flag that was true
and the count of true checklist flags decreases. -/
theorem compliance_reset_cex :
    ((List.lookup "EMP-1" (Adapter.checkOnboardingCompliance ⟨"EMP-1", some false, none, none⟩ 9
        ⟨[("EMP-1", readyOnbRecord)], []⟩).1.onb).map fun q => q.compliance.ndaSigned) =
      some false ∧
    readyOnbRecord.compliance.ndaSigned = true :=
  ⟨by decide, by decide⟩

/-- Pointwise order on a systems tracker: every flag true before is true after. -/
def flagsLe (a b : SystemFlags) : Prop :=
  (a.hrms = true → b.hrms = true) ∧ (a.email = true → b.email = true) ∧
  (a.network = true → b.network = true) ∧ (a.projectTools = true → b.projectTools = true)

theorem flagsLe_applySystem (f : SystemFlags) (s : String) :
    flagsLe f (Adapter.applySystem f s) := by
  unfold flagsLe Adapter.applySystem
  split_ifs <;> simp_all

theorem flagsLe_foldl (l : List String) (f : SystemFlags) :
    flagsLe f (l.foldl Adapter.applySystem f) := by
  induction l generalizing f with
  | nil => exact ⟨fun h => h, fun h => h, fun h => h, fun h => h⟩
  | cons s rest ih =>
    have h1 := flagsLe_applySystem f s
    have h2 := ih (Adapter.applySystem f s)
    exact ⟨fun h => h2.1 (h1.1 h), fun h => h2.2.1 (h1.2.1 h),
      fun h => h2.2.2.1 (h1.2.2.1 h), fun h => h2.2.2.2 (h1.2.2.2 h)⟩

/-- Claim C5 amended: the provisioning/deprovisioning and finance trackers are
monotone — a flag once true stays true across those calls — but the compliance
trackers overwrite each flag with the caller-supplied boolean, so a compliance
call with a false value resets a true flag and the count of true checklist
flags can decrease. -/
theorem checklist_flag_semantics :
    (∀ (st : Store) (id : String) (systems : List String) (now : Nat)
        (r r1 : OnboardingRecord),
      List.lookup id st.onb = some r →
      List.lookup id (Adapter.provisionSystems id systems now st).1.onb = some r1 →
      flagsLe r.systemProvisioning r1.systemProvisioning) ∧
    (∀ (st : Store) (id : String) (systems : List String) (now : Nat)
        (r r1 : OffboardingRecord),
      List.lookup id st.off = some r →
      List.lookup id (Adapter.deprovisionSystems id systems now st).1.off = some r1 →
      flagsLe r.systemDeprovisioning r1.systemDeprovisioning) ∧
    (∀ (st : Store) (id : String) (p b : Bool) (now : Nat) (r r1 : OnboardingRecord),
      List.lookup id st.onb = some r →
      List.lookup id (Adapter.enrollBenefits id p b now st).1.onb = some r1 →
      (r.financeEnrollment.payroll = true → r1.financeEnrollment.payroll = true) ∧
      (r.financeEnrollment.benefits = true → r1.financeEnrollment.benefits = true)) ∧
    (∀ (st : Store) (id : String) (p t : Bool) (now : Nat) (r r1 : OffboardingRecord),
      List.lookup id st.off = some r →
      List.lookup id (Adapter.processFinalPayroll id p t now st).1.off = some r1 →
      (r.finalPayroll.processed = true → r1.finalPayroll.processed = true) ∧
      (r.finalPayroll.benefitsTerminated = true → r1.finalPayroll.benefitsTerminated = true)) ∧
    (∀ (st : Store) (a : OnbComplianceArgs) (now : Nat) (r r1 : OnboardingRecord),
      List.lookup a.employeeId st.onb = some r →
      List.lookup a.employeeId (Adapter.checkOnboardingCompliance a now st).1.onb = some r1 →
      r1.compliance.ndaSigned = a.ndaSigned.getD r.compliance.ndaSigned ∧
      r1.compliance.idVerified = a.idVerified.getD r.compliance.idVerified ∧
      r1.compliance.backgroundCheck = a.backgroundCheck.getD r.compliance.backgroundCheck) ∧
    (∀ (st : Store) (a : OffComplianceArgs) (now : Nat) (r r1 : OffboardingRecord),
      List.lookup a.employeeId st.off = some r →
      List.lookup a.employeeId (Adapter.checkOffboardingCompliance a now st).1.off = some r1 →
      r1.compliance.exitFormSubmitted =
        a.exitFormSubmitted.getD r.compliance.exitFormSubmitted ∧
      r1.compliance.assetsReturned = a.assetsReturned.getD r.compliance.assetsReturned ∧
      r1.compliance.clearanceCertificate =
        a.clearanceCertificate.getD r.compliance.clearanceCertificate) := by
  refine ⟨?_, ?_, ?_, ?_, ?_, ?_⟩
  · intro st id systems now r r1 h h1
    simp only [Adapter.provisionSystems, h, lookup_mapSet_self, Option.some.injEq] at h1
    subst h1
    exact flagsLe_foldl systems r.systemProvisioning
  · intro st id systems now r r1 h h1
    simp only [Adapter.deprovisionSystems, h, lookup_mapSet_self, Option.some.injEq] at h1
    subst h1
    exact flagsLe_foldl systems r.systemDeprovisioning
  · intro st id p b now r r1 h h1
    simp only [Adapter.enrollBenefits, h, lookup_mapSet_self, Option.some.injEq] at h1
    subst h1
    cases p <;> cases b <;> simp
  · intro st id p t now r r1 h h1
    simp only [Adapter.processFinalPayroll, h, lookup_mapSet_self, Option.some.injEq] at h1
    subst h1
    cases p <;> cases t <;> simp
  · intro st a now r r1 h h1
    obtain ⟨id, nda, idv, bg⟩ := a
    simp only [Adapter.checkOnboardingCompliance, h, lookup_mapSet_self,
      Option.some.injEq] at h1
    subst h1
    cases nda <;> cases idv <;> cases bg <;> simp [Option.getD]
  · intro st a now r r1 h h1
    obtain ⟨id, ef, ar, cc⟩ := a
    simp only [Adapter.checkOffboardingCompliance, h, lookup_mapSet_self,
      Option.some.injEq] at h1
    subst h1
    cases ef <;> cases ar <;> cases cc <;> simp [Option.getD]

/-- Witness for the amended C5: provisioning only the email system keeps the
already-true hrms flag true. -/
theorem checklist_flag_semantics_witness :
    ((List.lookup "EMP-1" (Adapter.provisionSystems "EMP-1" ["email"] 2
        ⟨[("EMP-1", readyOnbRecord)], []⟩).1.onb).map fun q => q.systemProvisioning.hrms) =
      some true := by
  obtain ⟨r1, hr1⟩ : ∃ r1, List.lookup "EMP-1" (Adapter.provisionSystems "EMP-1" ["email"] 2
      ⟨[("EMP-1", readyOnbRecord)], []⟩).1.onb = some r1 := ⟨_, rfl⟩
  have hm := (checklist_flag_semantics.1 ⟨[("EMP-1", readyOnbRecord)], []⟩ "EMP-1" ["email"] 2
    readyOnbRecord r1 rfl hr1).1 (by decide)
  rw [hr1]
  simp [hm]

/-- Claim C6: every state-mutating operation that succeeds on an existing
record (approval, provisioning/deprovisioning, compliance, finance, successful
completion) grows that record's audit trail by exactly one entry, and the
read-only operations (status queries, pending-approvals listing, employee
details, data validation) leave the store — hence every audit trail —
untouched. -/
theorem audit_append_exactly_one :
    (∀ (st : Store) (a : ApproveOnbArgs) (now : Nat) (r : OnboardingRecord),
      List.lookup a.employeeId st.onb = some r →
      ((List.lookup a.employeeId (Adapter.approveOnboarding a now st).1.onb).map
        fun q => q.auditTrail.length) = some (r.auditTrail.length + 1)) ∧
    (∀ (st : Store) (id : String) (systems : List String) (now : Nat) (r : OnboardingRecord),
      List.lookup id st.onb = some r →
      ((List.lookup id (Adapter.provisionSystems id systems now st).1.onb).map
        fun q => q.auditTrail.length) = some (r.auditTrail.length + 1)) ∧
    (∀ (st : Store) (id : String) (p b : Bool) (now : Nat) (r : OnboardingRecord),
      List.lookup id st.onb = some r →
      ((List.lookup id (Adapter.enrollBenefits id p b now st).1.onb).map
        fun q => q.auditTrail.length) = some (r.auditTrail.length + 1)) ∧
    (∀ (st : Store) (a : OnbComplianceArgs) (now : Nat) (r : OnboardingRecord),
      List.lookup a.employeeId st.onb = some r →
      ((List.lookup a.employeeId (Adapter.checkOnboardingCompliance a now st).1.onb).map
        fun q => q.auditTrail.length) = some (r.auditTrail.length + 1)) ∧
    (∀ (st : Store) (id cb : String) (now : Nat) (r : OnboardingRecord),
      List.lookup id st.onb = some r →
      (Adapter.completeOnboarding id cb now st).2.isSuccess = true →
      ((List.lookup id (Adapter.completeOnboarding id cb now st).1.onb).map
        fun q => q.auditTrail.length) = some (r.auditTrail.length + 1)) ∧
    (∀ (st : Store) (a : ApproveOffArgs) (now : Nat) (r : OffboardingRecord),
      List.lookup a.employeeId st.off = some r →
      ((List.lookup a.employeeId (Adapter.approveOffboarding a now st).1.off).map
        fun q => q.auditTrail.length) = some (r.auditTrail.length + 1)) ∧
    (∀ (st : Store) (id : String) (systems : List String) (now : Nat) (r : OffboardingRecord),
      List.lookup id st.off = some r →
      ((List.lookup id (Adapter.deprovisionSystems id systems now st).1.off).map
        fun q => q.auditTrail.length) = some (r.auditTrail.length + 1)) ∧
    (∀ (st : Store) (id : String) (p t : Bool) (now : Nat) (r : OffboardingRecord),
      List.lookup id st.off = some r →
      ((List.lookup id (Adapter.processFinalPayroll id p t now st).1.off).map
        fun q => q.auditTrail.length) = some (r.auditTrail.length + 1)) ∧
    (∀ (st : Store) (a : OffComplianceArgs) (now : Nat) (r : OffboardingRecord),
      List.lookup a.employeeId st.off = some r →
      ((List.lookup a.employeeId (Adapter.checkOffboardingCompliance a now st).1.off).map
        fun q => q.auditTrail.length) = some (r.auditTrail.length + 1)) ∧
    (∀ (st : Store) (id cb : String) (now : Nat) (r : OffboardingRecord),
      List.lookup id st.off = some r →
      (Adapter.completeOffboarding id cb now st).2.isSuccess = true →
      ((List.lookup id (Adapter.completeOffboarding id cb now st).1.off).map
        fun q => q.auditTrail.length) = some (r.auditTrail.length + 1)) ∧
    (∀ (st : Store) (id : String), (Adapter.validateOnboardingData id st).1 = st) ∧
    (∀ (st : Store) (id : String), (Adapter.getOnboardingStatus id st).1 = st) ∧
    (∀ (st : Store) (id : String), (Adapter.getOffboardingStatus id st).1 = st) ∧
    (∀ (st : Store) (ty : ListType), (Adapter.listPendingApprovals ty st).1 = st) ∧
    (∀ (st : Store) (id : String), (Adapter.getEmployeeDetails id st).1 = st) := by
  refine ⟨?_, ?_, ?_, ?_, ?_, ?_, ?_, ?_, ?_, ?_, ?_, ?_, ?_, ?_, ?_⟩
  · intro st a now r h
    obtain ⟨id, role, nm, ap, cm⟩ := a
    cases role <;>
      simp only [Adapter.approveOnboarding, h, lookup_mapSet_self, Option.map_some'] <;>
      split_ifs <;>
      simp
  · intro st id systems now r h
    simp [Adapter.provisionSystems, h, lookup_mapSet_self]
  · intro st id p b now r h
    cases p <;> cases b <;> simp [Adapter.enrollBenefits, h, lookup_mapSet_self]
  · intro st a now r h
    obtain ⟨id, nda, idv, bg⟩ := a
    cases nda <;> cases idv <;> cases bg <;>
      simp [Adapter.checkOnboardingCompliance, h, lookup_mapSet_self]
  · intro st id cb now r h hs
    cases hcond : (!(r.systemProvisioning.hrms && r.systemProvisioning.email &&
        r.systemProvisioning.network && r.systemProvisioning.projectTools) ||
        !(r.compliance.ndaSigned && r.compliance.idVerified &&
          r.compliance.backgroundCheck) ||
        !(r.financeEnrollment.payroll && r.financeEnrollment.benefits) ||
        !(r.approvals.hr.approved && r.approvals.manager.approved))
    · simp only [Bool.or_eq_false_iff, Bool.not_eq_false', Bool.and_eq_true] at hcond
      simp [Adapter.completeOnboarding, h, lookup_mapSet_self, hcond]
    · simp only [Adapter.completeOnboarding, h, hcond] at hs
      simp [ToolResult.isSuccess] at hs
  · intro st a now r h
    obtain ⟨id, role, nm, ap, cm⟩ := a
    cases role <;>
      simp only [Adapter.approveOffboarding, h, lookup_mapSet_self, Option.map_some'] <;>
      split_ifs <;>
      simp
  · intro st id systems now r h
    simp [Adapter.deprovisionSystems, h, lookup_mapSet_self]
  · intro st id p t now r h
    cases p <;> cases t <;> simp [Adapter.processFinalPayroll, h, lookup_mapSet_self]
  · intro st a now r h
    obtain ⟨id, ef, ar, cc⟩ := a
    cases ef <;> cases ar <;> cases cc <;>
      simp [Adapter.checkOffboardingCompliance, h, lookup_mapSet_self]
  · intro st id cb now r h hs
    cases hcond : (!(r.systemDeprovisioning.hrms && r.systemDeprovisioning.email &&
        r.systemDeprovisioning.network && r.systemDeprovisioning.projectTools) ||
        !(r.compliance.exitFormSubmitted && r.compliance.assetsReturned &&
          r.compliance.clearanceCertificate) ||
        !(r.finalPayroll.processed && r.finalPayroll.benefitsTerminated) ||
        !(r.approvals.manager.approved && r.approvals.hr.approved))
    · simp only [Bool.or_eq_false_iff, Bool.not_eq_false', Bool.and_eq_true] at hcond
      simp [Adapter.completeOffboarding, h, lookup_mapSet_self, hcond]
    · simp only [Adapter.completeOffboarding, h, hcond] at hs
      simp [ToolResult.isSuccess] at hs
  · intro st id
    unfold Adapter.validateOnboardingData
    cases hl : List.lookup id st.onb <;> simp
  · intro st id
    unfold Adapter.getOnboardingStatus
    cases hl : List.lookup id st.onb <;> simp
  · intro st id
    unfold Adapter.getOffboardingStatus
    cases hl : List.lookup id st.off <;> simp
  · intro st ty
    rfl
  · intro st id
    unfold Adapter.getEmployeeDetails
    cases h1 : List.lookup id st.onb
    · cases h2 : List.lookup id st.off <;> simp
    · simp

/-- Witness for C6: an hr approval on a fresh record grows its audit trail
from one entry to two, and validation leaves the store unchanged. -/
theorem audit_append_exactly_one_witness :
    ((List.lookup "EMP-1" (Adapter.approveOnboarding ⟨"EMP-1", .hr, "Hana", true, none⟩ 3
        ⟨[("EMP-1", freshOnbRecord)], []⟩).1.onb).map fun q => q.auditTrail.length) =
      some 2 ∧
    (Adapter.validateOnboardingData "EMP-1" ⟨[("EMP-1", freshOnbRecord)], []⟩).1 =
      ⟨[("EMP-1", freshOnbRecord)], []⟩ := by
  constructor
  · have hpart := audit_append_exactly_one.1 ⟨[("EMP-1", freshOnbRecord)], []⟩
      ⟨"EMP-1", .hr, "Hana", true, none⟩ 3 freshOnbRecord rfl
    simpa using hpart
  · exact audit_append_exactly_one.2.2.2.2.2.2.2.2.2.2.1
      ⟨[("EMP-1", freshOnbRecord)], []⟩ "EMP-1"

theorem applySystem_idem (f : SystemFlags) (s : String) :
    Adapter.applySystem (Adapter.applySystem f s) s = Adapter.applySystem f s := by
  unfold Adapter.applySystem
  split_ifs <;> simp_all

/-- Claim C8: flag application is idempotent — applying the same flag name (or
the same optional booleans) twice, in one call or in two consecutive calls,
leaves the tracker's boolean state equal to the state after applying it once. -/
theorem flag_application_idempotent :
    (∀ (st : Store) (id f : String) (t1 t2 : Nat) (r : OnboardingRecord),
      List.lookup id st.onb = some r →
      ((List.lookup id (Adapter.provisionSystems id [f] t2
          (Adapter.provisionSystems id [f] t1 st).1).1.onb).map
        fun q => q.systemProvisioning) =
      ((List.lookup id (Adapter.provisionSystems id [f] t1 st).1.onb).map
        fun q => q.systemProvisioning)) ∧
    (∀ (st : Store) (id f : String) (t1 : Nat) (r : OnboardingRecord),
      List.lookup id st.onb = some r →
      ((List.lookup id (Adapter.provisionSystems id [f, f] t1 st).1.onb).map
        fun q => q.systemProvisioning) =
      ((List.lookup id (Adapter.provisionSystems id [f] t1 st).1.onb).map
        fun q => q.systemProvisioning)) ∧
    (∀ (st : Store) (id f : String) (t1 t2 : Nat) (r : OffboardingRecord),
      List.lookup id st.off = some r →
      ((List.lookup id (Adapter.deprovisionSystems id [f] t2
          (Adapter.deprovisionSystems id [f] t1 st).1).1.off).map
        fun q => q.systemDeprovisioning) =
      ((List.lookup id (Adapter.deprovisionSystems id [f] t1 st).1.off).map
        fun q => q.systemDeprovisioning)) ∧
    (∀ (st : Store) (id f : String) (t1 : Nat) (r : OffboardingRecord),
      List.lookup id st.off = some r →
      ((List.lookup id (Adapter.deprovisionSystems id [f, f] t1 st).1.off).map
        fun q => q.systemDeprovisioning) =
      ((List.lookup id (Adapter.deprovisionSystems id [f] t1 st).1.off).map
        fun q => q.systemDeprovisioning)) ∧
    (∀ (st : Store) (a : OnbComplianceArgs) (t1 t2 : Nat) (r : OnboardingRecord),
      List.lookup a.employeeId st.onb = some r →
      ((List.lookup a.employeeId (Adapter.checkOnboardingCompliance a t2
          (Adapter.checkOnboardingCompliance a t1 st).1).1.onb).map
        fun q => q.compliance) =
      ((List.lookup a.employeeId (Adapter.checkOnboardingCompliance a t1 st).1.onb).map
        fun q => q.compliance)) ∧
    (∀ (st : Store) (a : OffComplianceArgs) (t1 t2 : Nat) (r : OffboardingRecord),
      List.lookup a.employeeId st.off = some r →
      ((List.lookup a.employeeId (Adapter.checkOffboardingCompliance a t2
          (Adapter.checkOffboardingCompliance a t1 st).1).1.off).map
        fun q => q.compliance) =
      ((List.lookup a.employeeId (Adapter.checkOffboardingCompliance a t1 st).1.off).map
        fun q => q.compliance)) ∧
    (∀ (st : Store) (id : String) (p b : Bool) (t1 t2 : Nat) (r : OnboardingRecord),
      List.lookup id st.onb = some r →
      ((List.lookup id (Adapter.enrollBenefits id p b t2
          (Adapter.enrollBenefits id p b t1 st).1).1.onb).map
        fun q => q.financeEnrollment) =
      ((List.lookup id (Adapter.enrollBenefits id p b t1 st).1.onb).map
        fun q => q.financeEnrollment)) ∧
    (∀ (st : Store) (id : String) (p t : Bool) (t1 t2 : Nat) (r : OffboardingRecord),
      List.lookup id st.off = some r →
      ((List.lookup id (Adapter.processFinalPayroll id p t t2
          (Adapter.processFinalPayroll id p t t1 st).1).1.off).map
        fun q => q.finalPayroll) =
      ((List.lookup id (Adapter.processFinalPayroll id p t t1 st).1.off).map
        fun q => q.finalPayroll)) := by
  refine ⟨?_, ?_, ?_, ?_, ?_, ?_, ?_, ?_⟩
  · intro st id f t1 t2 r h
    simp [Adapter.provisionSystems, h, lookup_mapSet_self, applySystem_idem]
  · intro st id f t1 r h
    simp [Adapter.provisionSystems, h, lookup_mapSet_self, applySystem_idem]
  · intro st id f t1 t2 r h
    simp [Adapter.deprovisionSystems, h, lookup_mapSet_self, applySystem_idem]
  · intro st id f t1 r h
    simp [Adapter.deprovisionSystems, h, lookup_mapSet_self, applySystem_idem]
  · intro st a t1 t2 r h
    obtain ⟨id, nda, idv, bg⟩ := a
    cases nda <;> cases idv <;> cases bg <;>
      simp [Adapter.checkOnboardingCompliance, h, lookup_mapSet_self]
  · intro st a t1 t2 r h
    obtain ⟨id, ef, ar, cc⟩ := a
    cases ef <;> cases ar <;> cases cc <;>
      simp [Adapter.checkOffboardingCompliance, h, lookup_mapSet_self]
  · intro st id p b t1 t2 r h
    cases p <;> cases b <;> simp [Adapter.enrollBenefits, h, lookup_mapSet_self]
  · intro st id p t t1 t2 r h
    cases p <;> cases t <;> simp [Adapter.processFinalPayroll, h, lookup_mapSet_self]

/-- Witness for C8: provisioning the email system twice in a row yields the
same provisioning flags as provisioning it once. -/
theorem flag_application_idempotent_witness :
    ((List.lookup "EMP-1" (Adapter.provisionSystems "EMP-1" ["email"] 5
        (Adapter.provisionSystems "EMP-1" ["email"] 4
          ⟨[("EMP-1", freshOnbRecord)], []⟩).1).1.onb).map
      fun q => q.systemProvisioning) =
    ((List.lookup "EMP-1" (Adapter.provisionSystems "EMP-1" ["email"] 4
        ⟨[("EMP-1", freshOnbRecord)], []⟩).1.onb).map
      fun q => q.systemProvisioning) :=
  flag_application_idempotent.1 ⟨[("EMP-1", freshOnbRecord)], []⟩ "EMP-1" "email" 4 5
    freshOnbRecord rfl
